import Mathlib

/-!
# Verification of the Reddit Mastermind calendar generator

A shallow embedding of the core `CalendarGenerator` class
(`src/unnamed/part_004`, the variant wired to the external text generator)
together with proofs about the claims of the specification.

Modelling conventions:

* JavaScript `Math.random()` is modelled by a stream of exact rational draws
  (`Rng`), each intended to lie in `[0, 1)`.  Rationals are represented by the
  non-normalising fraction type `Frac` so that every arithmetic step reduces
  inside the Lean kernel; decimal literals of the source such as `0.7` are the
  exact rationals `7/10`.
* Calendar dates (`format(date, 'yyyy-MM-dd')` strings) are modelled as day
  numbers (`Nat`); comparing the ISO strings lexicographically is the same as
  comparing day numbers.  By convention day numbers that are `0 mod 7` are
  Mondays, which models `startOfWeek(date, { weekStartsOn: 1 })` as rounding
  down to a multiple of 7.
* Scheduled times (`"HH:MM"` strings, zero padded) are modelled by the pair of
  an hour and a minute; lexicographic comparison of the padded strings equals
  lexicographic comparison of the pairs, and `substring(0, 2)` is the hour.
* JavaScript `Array.prototype.sort` is a stable sort (ECMA-262); it is modelled
  by `List.insertionSort`, which is stable and reduces in the kernel.
* `Map`/`Set` objects that the generator only ever reads back pointwise are
  modelled as functions `String → Nat` resp. membership lists.
* The external ChatGPT calls (`generatePostTitle`, `generatePostContent`,
  `generateComment` from `@/lib/ai/chatgpt`) are an injected capability
  (`Gen`) whose methods return `Except String String`; a thrown exception is
  an `error` result.  The source's quota/rate-limit classification only picks
  a console message and is not modelled.
* The literal phrase tables of the template fallbacks are schematised: each
  template function performs exactly the random draws of the corresponding
  source branch and returns a placeholder string recording the chosen branch.
  No claim under verification depends on the literal English text.
-/

namespace RMM

/-! ## Exact fractions that reduce in the kernel -/

/-- An unreduced fraction `num / den`.  All fractions built by the generator
have a positive denominator.  Used to model the IEEE doubles that flow out of
`Math.random()` and through the weighted-selection arithmetic; on the inputs
the generator produces, double arithmetic and exact rational arithmetic
agree. -/
structure Frac where
  num : Int
  den : Nat
deriving DecidableEq

/-- `a < b` by cross multiplication (denominators positive). -/
def Frac.blt (a b : Frac) : Bool := a.num * (b.den : Int) < b.num * (a.den : Int)

/-- `a + b` without normalisation. -/
def Frac.add (a b : Frac) : Frac := ⟨a.num * b.den + b.num * a.den, a.den * b.den⟩

/-- `a - b` without normalisation. -/
def Frac.sub (a b : Frac) : Frac := ⟨a.num * b.den - b.num * a.den, a.den * b.den⟩

/-- `a * b` without normalisation. -/
def Frac.mul (a b : Frac) : Frac := ⟨a.num * b.num, a.den * b.den⟩

/-- `a ≤ 0`, used for the `random <= 0` test of the weighted selection. -/
def Frac.nonposB (a : Frac) : Bool := a.num ≤ 0

/-- `Math.floor(r * n)` for a non-negative fraction `r` and a natural `n`. -/
def Frac.floorMul (r : Frac) (n : Nat) : Nat := r.num.toNat * n / r.den

/-- The fraction is a well-formed value of `Math.random()`: positive
denominator and value in `[0, 1)`. -/
def Frac.InUnit (a : Frac) : Prop := 0 < a.den ∧ 0 ≤ a.num ∧ a.num < (a.den : Int)

theorem Frac.floorMul_lt {r : Frac} {n : Nat} (h : r.InUnit) (hn : 0 < n) :
    r.floorMul n < n := by
  obtain ⟨hden, _, hlt⟩ := h
  have hnum : r.num.toNat < r.den := by omega
  have : r.num.toNat * n < n * r.den := by
    have := Nat.mul_lt_mul_of_lt_of_le hnum (Nat.le_refl n) hn
    calc r.num.toNat * n < r.den * n := by
          exact Nat.mul_lt_mul_of_lt_of_le hnum (Nat.le_refl n) hn
    _ = n * r.den := Nat.mul_comm _ _
  exact Nat.div_lt_iff_lt_mul hden |>.mpr this

/-! ## The `Math.random()` stream -/

/-- A deterministic model of the stream of `Math.random()` results: an
infinite sequence of draws together with the index of the next one. -/
structure Rng where
  seq : Nat → Frac
  pos : Nat

/-- Consume one draw. -/
def Rng.next (g : Rng) : Frac × Rng := (g.seq g.pos, ⟨g.seq, g.pos + 1⟩)

/-- Every draw of the stream is a genuine `Math.random()` value in `[0,1)`. -/
def Rng.Valid (g : Rng) : Prop := ∀ n, (g.seq n).InUnit

theorem Rng.Valid.next {g : Rng} (h : g.Valid) : (g.next.2).Valid := h

theorem Rng.Valid.draw {g : Rng} (h : g.Valid) : (g.next.1).InUnit := h g.pos

/-- The constant stream that returns the same draw forever. -/
def constRng (f : Frac) : Rng := ⟨fun _ => f, 0⟩

/-! ## Kernel-reducible string helpers

The JavaScript string operations used by the generator, re-implemented over
the character list of a `String` so that every operation reduces inside the
kernel (`String.splitOn` and friends are byte-position based and do not). -/

/-- `needle` is a prefix of `hay` (character lists). -/
def charsPrefix : List Char → List Char → Bool
  | [], _ => true
  | _ :: _, [] => false
  | a :: as, b :: bs => a == b && charsPrefix as bs

/-- `needle` occurs somewhere in `hay` (character lists). -/
def charsContains (needle : List Char) : List Char → Bool
  | [] => needle.isEmpty
  | c :: cs => charsPrefix needle (c :: cs) || charsContains needle cs

/-- JavaScript `hay.includes(needle)`. -/
def strContains (hay needle : String) : Bool := charsContains needle.data hay.data

/-- JavaScript `s.startsWith(p)`. -/
def strStarts (s p : String) : Bool := charsPrefix p.data s.data

/-- JavaScript `s.toLowerCase()` (ASCII, which covers every generated string). -/
def lowerStr (s : String) : String := ⟨s.data.map Char.toLower⟩

/-- JavaScript `s.trim()` for the space characters the generator produces. -/
def trimStr (s : String) : String :=
  ⟨((s.data.dropWhile (· == ' ')).reverse.dropWhile (· == ' ')).reverse⟩

/-- Split a character list at every space, keeping empty pieces, as
JavaScript `s.split(' ')` does. -/
def splitSpAux : List Char → List Char → List (List Char)
  | [], cur => [cur.reverse]
  | c :: cs, cur =>
      if c == ' ' then cur.reverse :: splitSpAux cs []
      else splitSpAux cs (c :: cur)

/-- JavaScript `s.split(' ')`. -/
def splitSp (s : String) : List String := (splitSpAux s.data []).map fun l => ⟨l⟩

/-- JavaScript `words.join(' ')`. -/
def joinSp (l : List String) : String := String.intercalate " " l

/-! ## Data model (`@/lib/types`) -/

/-- The persona tone enumeration. -/
inductive Tone
  | professional
  | casual
  | friendly
  | technical
  | humorous
deriving DecidableEq

/-- The query intent enumeration. -/
inductive Intent
  | question
  | discussion
  | advice
  | review
deriving DecidableEq

/-- A synthetic author.  `id` is `none` for a persona that has not been
persisted yet (JavaScript `undefined`); an empty string is also falsy in the
`p.id || p.name` fallbacks and is modelled accordingly. -/
structure Persona where
  id : Option String
  name : String
  reddit_username : String
  bio : String
  expertise_areas : List String
  tone : Tone
deriving DecidableEq

/-- A target community with its weekly posting cap. -/
structure Subreddit where
  id : Option String
  name : String
  post_frequency_limit : Option Nat
deriving DecidableEq

/-- A discussion topic ("ChatGPT query"). -/
structure ChatGPTQuery where
  query : String
  intent : Intent
  company_id : String
deriving DecidableEq

/-- Post kind. -/
inductive PostType
  | original
  | comment
deriving DecidableEq

/-- Provenance of a generated text field. -/
inductive SourceTag
  | chatgpt
  | template
deriving DecidableEq

/-- A generated calendar entry.  `id` is never assigned by the generator, so
it is `none` for every post of a run; `parent_post_id` is set to the parent's
`id` for comments.  `scheduled_date` is a day number and `scheduled_hour` /
`scheduled_minute` model the `"HH:MM"` string. -/
structure CalendarPost where
  id : Option String := none
  calendar_id : String
  persona_id : String
  subreddit_id : String
  title : String
  content : String
  scheduled_date : Nat
  scheduled_hour : Nat
  scheduled_minute : Nat
  post_type : PostType
  parent_post_id : Option String := none
  status : String := "pending"
  title_source : Option SourceTag := none
  content_source : Option SourceTag := none
deriving DecidableEq

/-- The generation request (`CalendarGenerationInput`).  The company is only
read for its id.  `week_start_date` is the requested anchor day number. -/
structure CalendarGenerationInput where
  company_id : Option String
  personas : List Persona
  subreddits : List Subreddit
  chatgpt_queries : List ChatGPTQuery
  posts_per_week : Nat
  week_start_date : Nat
deriving DecidableEq

/-- The calendar metadata of a result.  `generated_at` (a wall-clock
timestamp) is not modelled. -/
structure ContentCalendar where
  company_id : String
  week_start_date : Nat
  week_end_date : Nat
  posts_per_week : Nat
  quality_score : Option ℚ := none

/-- Warnings collected during a run.  The source pushes formatted strings;
 only the kind and the interpolated data are modelled. -/
inductive Warning
  | duplicateUsernames (names : List String)
  | overposting (subredditName : String) (count limit : Nat)
deriving DecidableEq

/-- The value returned by `generate`. -/
structure CalendarGenerationResult where
  calendar : ContentCalendar
  posts : List CalendarPost
  quality_score : ℚ
  warnings : List Warning

/-- The validation failures thrown by `validateInputs` (the source throws
`Error` objects with fixed messages). -/
inductive ValidationError
  | notEnoughPersonas
  | noSubreddit
  | noQuery
  | postsPerWeekTooSmall
deriving DecidableEq

/-- The comment-type matrix of the comment generators. -/
inductive CommentType
  | share_experience
  | add_value
  | agree_and_expand
  | ask_followup
  | provide_tip
  | relate_personally
deriving DecidableEq

/-- The injected external text generator (`@/lib/ai/chatgpt`).  Any thrown
error is an `Except.error`. -/
structure Gen where
  title : String → Intent → Tone → String → Except String String
  content : String → Intent → Tone → String → List String → String → Except String String
  comment : String → String → String → Intent → Tone → String → List String → CommentType → Except String String

/-! ## JavaScript falsy-fallback helpers -/

/-- JavaScript `a || b` for an optional string `a`: `undefined` and the empty
string both fall back. -/
def strOr (a : Option String) (b : String) : String :=
  match a with
  | none => b
  | some s => if s = "" then b else s

/-- JavaScript `a || ''` for an optional string. -/
def idOrEmpty (a : Option String) : String := a.getD ""

/-- `sub.id || sub.name`: the bookkeeping key of a subreddit. -/
def subKey (s : Subreddit) : String := strOr s.id s.name

/-- `persona.id || persona.name`: the bookkeeping key of a persona. -/
def personaKey (p : Persona) : String := strOr p.id p.name

/-- `sub.post_frequency_limit || 2`: the weekly cap, with the JavaScript
falsiness quirk that an explicit limit of `0` also falls back to `2`. -/
def limitOf (s : Subreddit) : Nat :=
  match s.post_frequency_limit with
  | none => 2
  | some 0 => 2
  | some n => n

/-! ## Selection algorithms (`selectSubreddit`, `selectPersona`, `selectTopic`) -/

/-- The inner loop of the weighted selection: repeatedly subtract a weight
from the remaining random mass and stop at the first index where it becomes
non-positive (`random -= weights[i]; if (random <= 0) return available[i]`). -/
def pickIdxAux : List Frac → Frac → Nat → Option Nat
  | [], _, _ => none
  | w :: ws, rem, i =>
      if (rem.sub w).nonposB then some i else pickIdxAux ws (rem.sub w) (i + 1)

/-- `selectSubreddit` (part_004 lines 200–235): restrict to subreddits under
their limit; if none, return the least-posted subreddit (stable sort, so ties
keep input order); otherwise sample with weight `1/(count+1)`.  The fallback
`return available[0]` of the exhausted loop is the `getD` default. -/
def selectSubreddit (subs : List Subreddit) (postCount : String → Nat)
    (rng : Rng) : Option Subreddit × Rng :=
  let available := subs.filter fun sub => postCount (subKey sub) < limitOf sub
  match available with
  | [] =>
      let sorted := List.insertionSort
        (fun a b => postCount (subKey a) ≤ postCount (subKey b)) subs
      (sorted.head?, rng)
  | a :: _ =>
      let weights := available.map fun sub => Frac.mk 1 (postCount (subKey sub) + 1)
      let totalWeight := weights.foldl Frac.add ⟨0, 1⟩
      let (r, rng) := rng.next
      let idx := (pickIdxAux weights (r.mul totalWeight) 0).getD 0
      (some (available.getD idx a), rng)

/-- `selectPersona` (part_004 lines 240–257): sort ascending by posts so far
(stable), take the least used with probability `0.7`, otherwise sample
uniformly from the lower half (`ceil(n/2)`).  The `subredditId` argument is
unused by the source body as well. -/
def selectPersona (personas : List Persona) (postCount : String → Nat)
    (_subredditId : String) (rng : Rng) : Option Persona × Rng :=
  let sorted := List.insertionSort
    (fun a b => postCount (personaKey a) ≤ postCount (personaKey b)) personas
  let (r, rng) := rng.next
  if r.blt ⟨7, 10⟩ then
    (sorted.head?, rng)
  else
    let half := (sorted.length + 1) / 2
    let candidates := sorted.take half
    let (r2, rng) := rng.next
    (candidates.get? (r2.floorMul candidates.length), rng)

/-- `selectTopic` (part_004 lines 262–275): uniform among unused queries,
falling back to uniform among all queries once every topic has been used. -/
def selectTopic (queries : List ChatGPTQuery) (usedTopics : List String)
    (rng : Rng) : Option ChatGPTQuery × Rng :=
  let unused := queries.filter fun q => ¬ usedTopics.contains q.query
  match unused with
  | [] =>
      let (r, rng) := rng.next
      (queries.get? (r.floorMul queries.length), rng)
  | _ =>
      let (r, rng) := rng.next
      (unused.get? (r.floorMul unused.length), rng)

/-! ## Text helpers of the template path -/

/-- `extractKeyTerms` (part_004 lines 1200–1204): the first seven
space-separated words of the query. -/
def extractKeyTerms (query : String) : String :=
  joinSp ((splitSp query).take 7)

/-- The `" vs " / " versus " / " compare"` test applied to a lower-cased
query (part_004 lines 490–491, 564–565). -/
def isComparisonQuery (query : String) : Bool :=
  let q := lowerStr query
  strContains q " vs " || strContains q " versus " || strContains q " compare"

/-- `isToolOrProduct` (part_004 lines 1209–1225). -/
def isToolOrProduct (keyTerms : String) : Bool :=
  let lower := lowerStr keyTerms
  if strStarts lower "how to" || strStarts lower "how do" ||
      strStarts lower "what is" || strStarts lower "what are" ||
      strStarts lower "why" || strStarts lower "when" || strStarts lower "where" then
    false
  else if strContains lower "tool" || strContains lower "software" ||
      strContains lower "app" || strContains lower "platform" ||
      strContains lower "service" || strContains lower "alternative" then
    true
  else
    (splitSp keyTerms).length ≤ 3

/-- The stop list of `extractTopicFromTitle` (part_004 lines 1232–1239). -/
def questionWords : List String :=
  ["has", "anyone", "tried", "looking", "for", "advice", "question", "about",
   "thoughts", "on", "need", "review", "best", "practices", "insights",
   "what", "are", "your", "experience", "been", "like", "tips", "things",
   "watch", "out", "thanks", "advance", "discuss", "with", "this", "community",
   "working", "understand", "how", "others", "approach", "topic", "strategies",
   "solutions", "worked", "well", "you", "curious", "interested", "in"]

/-- `extractTopicFromTitle` (part_004 lines 1230–1273): lower-case the title,
replace punctuation by spaces, drop stop words, keep the first five remaining
words.  The regex middle fallback of the empty case is schematised away (it
only shapes placeholder text); the `slice(2, 7)` last resort is kept. -/
def extractTopicFromTitle (title : String) : String :=
  let cleaned : String :=
    ⟨(lowerStr title).data.map fun c =>
      if c == '?' || c == '.' || c == ',' || c == '!' || c == ':' || c == '-'
      then ' ' else c⟩
  let words := (splitSp cleaned).filter fun w => w.length > 0 && ¬ questionWords.contains w
  let topicWords := words.take 5
  if topicWords.isEmpty then
    let lastResort := joinSp (((splitSp title).drop 2).take 5)
    if lastResort = "" then "this" else lastResort
  else
    let s := joinSp topicWords
    if s = "" then "this" else s

/-- The number of entries of the `titleVariations` list the source ends up
drawing from (part_004 lines 495–546).  Only `question-*` keys and the bare
`discussion`/`advice`/`review` keys exist in the record, so for a
non-question intent both the `${intent}-${tone}` and the `${intent}-casual`
lookups miss and the single-entry default list is used; `question-humorous`
falls back to `question-casual`. -/
def titleVariantCount (intent : Intent) (tone : Tone) : Nat :=
  match intent, tone with
  | .question, .casual => 4
  | .question, .friendly => 3
  | .question, .professional => 3
  | .question, .technical => 3
  | .question, .humorous => 4
  | _, _ => 1

/-- Printable tag of a tone (placeholder text only). -/
def toneTag : Tone → String
  | .professional => "professional"
  | .casual => "casual"
  | .friendly => "friendly"
  | .technical => "technical"
  | .humorous => "humorous"

/-- Printable tag of an intent (placeholder text only). -/
def intentTag : Intent → String
  | .question => "question"
  | .discussion => "discussion"
  | .advice => "advice"
  | .review => "review"

/-- Printable tag of a comment type (placeholder text only). -/
def commentTypeTag : CommentType → String
  | .share_experience => "share_experience"
  | .add_value => "add_value"
  | .agree_and_expand => "agree_and_expand"
  | .ask_followup => "ask_followup"
  | .provide_tip => "provide_tip"
  | .relate_personally => "relate_personally"

/-- The private `generatePostTitle` method (part_004 lines 485–551): pick a
uniformly random variation of the table selected by comparison detection and
the `${intent}-${tone}` key.  The phrase table is schematised; exactly one
draw is consumed, as in the source, and the placeholder records the chosen
variant and the extracted key terms. -/
def generatePostTitleTemplate (topic : ChatGPTQuery) (persona : Persona)
    (rng : Rng) : String × Rng :=
  let keyTerms := extractKeyTerms topic.query
  let n :=
    if isComparisonQuery topic.query then 4
    else titleVariantCount topic.intent persona.tone
  let (r, rng) := rng.next
  ("tt:" ++ intentTag topic.intent ++ ":" ++ toneTag persona.tone ++ ":" ++
      toString (r.floorMul n) ++ ":" ++ keyTerms, rng)

/-- The private `generatePostContent` method (part_004 lines 557–654): the
comparison branch and every non-casual tone consume no draw; the casual tone
picks one of three openings.  The paragraph text is schematised but, as in
the source's non-comparison branches, the full query is embedded in the
produced content (which is what `findTopicForPost` later searches for). -/
def generatePostContentTemplate (topic : ChatGPTQuery) (persona : Persona)
    (subreddit : Subreddit) (rng : Rng) : String × Rng :=
  if isComparisonQuery topic.query then
    ("tb:comparison:" ++ toneTag persona.tone ++ ":" ++ subreddit.name, rng)
  else
    match persona.tone with
    | .casual =>
        let (r, rng) := rng.next
        ("tb:casual:" ++ toString (r.floorMul 3) ++ ":" ++ topic.query, rng)
    | t => ("tb:" ++ toneTag t ++ ":" ++ topic.query, rng)

/-- `findTopicForPost` (part_004 lines 659–679): first query whose text
occurs in the lower-cased title or content, else a fresh `question` query
built from the title. -/
def findTopicForPost (queries : List ChatGPTQuery) (companyId : String)
    (post : CalendarPost) : ChatGPTQuery :=
  match queries.find? (fun q =>
      strContains (lowerStr post.title) (lowerStr q.query) ||
      strContains (lowerStr post.content) (lowerStr q.query)) with
  | some q => q
  | none =>
      { query := extractTopicFromTitle post.title
        intent := .question
        company_id := companyId }

/-- The comparison test of the template comment generator (part_004 lines
698–700), which also looks at the parent title with the bare `"versus"` and
`"comparing"` substrings. -/
def commentIsComparison (keyTerms title : String) : Bool :=
  let k := lowerStr keyTerms
  let t := lowerStr title
  strContains k " vs " || strContains k " versus " || strContains k " compare" ||
    strContains t " vs " || strContains t "versus" || strContains t "comparing"

/-- Split a character list at every occurrence of a separator, with explicit
fuel so that the recursion is structural and kernel-reducible. -/
def splitSepFuel (sep : List Char) : Nat → List Char → List Char → List (List Char)
  | 0, rest, cur => [cur.reverse ++ rest]
  | _ + 1, [], cur => [cur.reverse]
  | f + 1, c :: cs, cur =>
      if charsPrefix sep (c :: cs) then
        cur.reverse :: splitSepFuel sep f (cs.drop (sep.length - 1)) []
      else
        splitSepFuel sep f cs (c :: cur)

/-- Split a string at every occurrence of a separator string. -/
def splitSep (s sep : String) : List String :=
  (splitSepFuel sep.data (s.data.length + 1) s.data []).map fun l => ⟨l⟩

/-- Whether the comparison-item extraction of the template comment generator
(part_004 lines 703–717) produces two non-empty items; schematised via the
split fallback of the source.  Only used to decide how many uniform draws the
corresponding branch performs. -/
def commentHasItems (keyTerms : String) : Bool :=
  let low := lowerStr keyTerms
  let parts :=
    if strContains low " vs " then splitSep low " vs "
    else if strContains low " versus " then splitSep low " versus "
    else if strContains low " compare" then splitSep low " compare"
    else [low]
  match parts with
  | a :: b :: _ => decide (a ≠ "") && decide (b ≠ "")
  | _ => false

/-- The list the source draws a comment type from. -/
def commentTypes : List CommentType :=
  [.share_experience, .add_value, .agree_and_expand, .ask_followup,
   .provide_tip, .relate_personally]

/-- The number of extra uniform draws performed inside the chosen branch of
`generateCommentContent` (part_004 lines 743–1192): the casual comparison
branches pick preferred items and a reason, and the two
`agree_and_expand`/tool branches pick an aspect; every other branch consumes
no draw. -/
def commentExtraDraws (tone : Tone) (ctype : CommentType)
    (isComp hasItems toolOrProduct : Bool) : Nat :=
  match tone, ctype with
  | .casual, .share_experience => if isComp && hasItems then 1 else 0
  | .casual, .add_value => if isComp && hasItems then 2 else 0
  | .casual, .agree_and_expand => if toolOrProduct then 1 else 0
  | .professional, .agree_and_expand => if toolOrProduct then 1 else 0
  | _, _ => 0

/-- Skip `n` draws of the stream. -/
def Rng.skip : Nat → Rng → Rng
  | 0, g => g
  | n + 1, g => Rng.skip n (g.next).2

/-- The private `generateCommentContent` method (part_004 lines 684–1195):
one uniform draw picks the comment type, the chosen branch performs its own
draws, and the text itself is schematised into a placeholder recording tone,
comment type and key terms.  `topic` is the (never-null) result of
`findTopicForPost`, so `keyTerms` is its query text. -/
def generateCommentContentTemplate (originalPost : CalendarPost)
    (commenter : Persona) (topic : ChatGPTQuery) (rng : Rng) : String × Rng :=
  let keyTerms := topic.query
  let isComp := commentIsComparison keyTerms originalPost.title
  let toolOrProduct := isToolOrProduct keyTerms && !isComp
  let (r, rng) := rng.next
  let ctype := commentTypes.getD (r.floorMul 6) .relate_personally
  let rng := Rng.skip
    (commentExtraDraws commenter.tone ctype isComp (commentHasItems keyTerms)
      toolOrProduct) rng
  ("tc:" ++ toneTag commenter.tone ++ ":" ++ commentTypeTag ctype ++ ":" ++
      keyTerms, rng)

/-! ## Building one original post -/

/-- The title `try`/`catch` block of `generateOriginalPost` (part_004 lines
289–314): external call, falling back to the template with provenance
`template` on any error. -/
def titleStep (gen : Gen) (persona : Persona) (subreddit : Subreddit)
    (topic : ChatGPTQuery) (rng : Rng) : String × SourceTag × Rng :=
  match gen.title topic.query topic.intent persona.tone subreddit.name with
  | .ok t => (t, SourceTag.chatgpt, rng)
  | .error _ =>
      let (t, rng) := generatePostTitleTemplate topic persona rng
      (t, SourceTag.template, rng)

/-- The content `try`/`catch` block of `generateOriginalPost` (part_004 lines
316–343). -/
def contentStep (gen : Gen) (persona : Persona) (subreddit : Subreddit)
    (topic : ChatGPTQuery) (rng : Rng) : String × SourceTag × Rng :=
  match gen.content topic.query topic.intent persona.tone persona.bio
      persona.expertise_areas subreddit.name with
  | .ok t => (t, SourceTag.chatgpt, rng)
  | .error _ =>
      let (t, rng) := generatePostContentTemplate topic persona subreddit rng
      (t, SourceTag.template, rng)

/-- `generateOriginalPost` (part_004 lines 280–362): try the external title
generator and fall back to the template on error, likewise for the content,
then draw the time slot (hour uniform in `[9, 20]`, minute on the
quarter-hour grid).  The `index` argument is unused by the source body too.
No `id` is assigned to the produced post. -/
def generateOriginalPost (gen : Gen) (persona : Persona) (subreddit : Subreddit)
    (topic : ChatGPTQuery) (scheduledDate : Nat) (_index : Nat) (rng : Rng) :
    CalendarPost × Rng :=
  let (title, titleSource, rng) := titleStep gen persona subreddit topic rng
  let (content, contentSource, rng) := contentStep gen persona subreddit topic rng
  let (r1, rng) := rng.next
  let hour := 9 + r1.floorMul 12
  let (r2, rng) := rng.next
  let minute := r2.floorMul 4 * 15
  ({ calendar_id := "temp"
     persona_id := idOrEmpty persona.id
     subreddit_id := idOrEmpty subreddit.id
     title := title
     content := content
     scheduled_date := scheduledDate
     scheduled_hour := hour
     scheduled_minute := minute
     post_type := .original
     title_source := some titleSource
     content_source := some contentSource }, rng)

/-! ## The conversation builder (`generateComments`) -/

/-- The text of one comment (part_004 lines 417–456): the comment type is
drawn inside the `try` block before the external call; on error the template
comment generator runs.  `originalTopic?.query || extractTopicFromTitle(...)`
falls back on an empty query text; `originalTopic?.intent || 'question'` can
never fall back because the topic is never null and intents are non-empty
enum strings. -/
def generateCommentText (gen : Gen) (post : CalendarPost) (commenter : Persona)
    (originalTopic : ChatGPTQuery) (rng : Rng) : String × SourceTag × Rng :=
  let (rt, rng) := rng.next
  let ctype := commentTypes.getD (rt.floorMul 6) .share_experience
  let topicArg :=
    if originalTopic.query = "" then extractTopicFromTitle post.title
    else originalTopic.query
  match gen.comment post.title post.content topicArg originalTopic.intent
      commenter.tone commenter.bio commenter.expertise_areas ctype with
  | .ok t => (t, .chatgpt, rng)
  | .error _ =>
      let (t, rng) := generateCommentContentTemplate post commenter originalTopic rng
      (t, .template, rng)

/-- The inner `for (let i = 0; i < numComments; i++)` loop of
`generateComments` (part_004 lines 387–475), annotated with the chosen
commenter of every produced comment.  `allComments` is the `comments` array
accumulated so far across *all* posts — the source's availability filter
reads that whole array (its `c.parent_post_id === post.id` conjunct compares
two values that are both `undefined` for generated posts).  The
`personaPostCount` update at the end of each iteration is dead state (nothing
reads the map afterwards) and is not modelled. -/
def commentLoopA (gen : Gen) (queries : List ChatGPTQuery) (companyId : String)
    (otherPersonas : List Persona) (allComments : List CalendarPost)
    (post : CalendarPost) :
    Nat → Nat → List (Persona × CalendarPost) → Rng →
    List (Persona × CalendarPost) × Rng
  | 0, _, sofar, rng => (sofar, rng)
  | n + 1, i, sofar, rng =>
    let availablePersonas := otherPersonas.filter fun p =>
      !((allComments ++ sofar.map Prod.snd).any fun c =>
        c.parent_post_id == post.id && c.persona_id == personaKey p)
    match availablePersonas with
    | [] => (sofar, rng)
    | a :: _ =>
      let (r1, rng) := rng.next
      let commenter := availablePersonas.getD (r1.floorMul availablePersonas.length) a
      let (r2, rng) := rng.next
      let hoursAfterPost := if i = 0 then 2 + r2.floorMul 4 else 4 + r2.floorMul 3
      let commentHour := min 21 (post.scheduled_hour + hoursAfterPost)
      let (r3, rng) := rng.next
      let commentMinute := r3.floorMul 4 * 15
      let commentDate :=
        if 22 ≤ commentHour then post.scheduled_date + 1 else post.scheduled_date
      let originalTopic := findTopicForPost queries companyId post
      let (ctext, src, rng) := generateCommentText gen post commenter originalTopic rng
      let c : CalendarPost :=
        { calendar_id := post.calendar_id
          persona_id := idOrEmpty commenter.id
          subreddit_id := post.subreddit_id
          title := ""
          content := ctext
          scheduled_date := commentDate
          scheduled_hour := commentHour
          scheduled_minute := commentMinute
          post_type := .comment
          parent_post_id := post.id
          content_source := some src }
      commentLoopA gen queries companyId otherPersonas allComments post
        n (i + 1) (sofar ++ [(commenter, c)]) rng

/-- The per-post body of `generateComments` (part_004 lines 375–386): skip
non-originals, build the pool of personas whose key differs from the post's
recorded `persona_id`, then add one comment (70%) or two (30%). -/
def commentsForPost (personas : List Persona) (queries : List ChatGPTQuery)
    (gen : Gen) (companyId : String) (allComments : List CalendarPost)
    (post : CalendarPost) (rng : Rng) : List (Persona × CalendarPost) × Rng :=
  if post.post_type ≠ PostType.original then ([], rng)
  else
    let otherPersonas := personas.filter fun p => personaKey p != post.persona_id
    match otherPersonas with
    | [] => ([], rng)
    | _ :: _ =>
      let (r, rng) := rng.next
      let numComments := if r.blt ⟨3, 10⟩ then 2 else 1
      commentLoopA gen queries companyId otherPersonas allComments post
        numComments 0 [] rng

/-- The outer loop of `generateComments`, producing for every original the
annotated list of its comments, threading the flat accumulated comment list
exactly as the source's single `comments` array. -/
def genCommentsAux (personas : List Persona) (queries : List ChatGPTQuery)
    (gen : Gen) (companyId : String) :
    List CalendarPost → List CalendarPost → Rng →
    List (CalendarPost × List (Persona × CalendarPost)) × Rng
  | [], _, rng => ([], rng)
  | post :: rest, acc, rng =>
      let (cs, rng) := commentsForPost personas queries gen companyId acc post rng
      let (groups, rng) :=
        genCommentsAux personas queries gen companyId rest (acc ++ cs.map Prod.snd) rng
      ((post, cs) :: groups, rng)

/-- `generateComments` (part_004 lines 367–480): the flat comment list, which
is the concatenation of the per-post comment lists in order. -/
def generateComments (personas : List Persona) (queries : List ChatGPTQuery)
    (gen : Gen) (companyId : String) (originalPosts : List CalendarPost)
    (rng : Rng) : List CalendarPost × Rng :=
  let (groups, rng) := genCommentsAux personas queries gen companyId originalPosts [] rng
  (groups.flatMap fun g => g.2.map Prod.snd, rng)

/-! ## The allocator (`generatePosts`) -/

/-- The mutable trackers of `generatePosts`: the two count maps (default 0,
matching `map.get(k) || 0` on the zero-initialised maps), the used-topic set,
the warning list and the running post index. -/
structure GenState where
  subCnt : String → Nat
  pCnt : String → Nat
  usedTopics : List String
  warnings : List Warning
  postIndex : Nat

/-- The trackers before the first slot. -/
def initState : GenState := ⟨fun _ => 0, fun _ => 0, [], [], 0⟩

/-- Increment a count map at one key. -/
def bump (f : String → Nat) (k : String) : String → Nat :=
  fun x => if x = k then f x + 1 else f x

/-- The inner `for (let i = 0; i < postsThisDay; i++)` loop of
`generatePosts` (part_004 lines 130–168), annotated with the persona chosen
for each slot.  A `none` from `selectSubreddit` is the source's
`if (!subreddit) break;`; `selectPersona`/`selectTopic` return `none` only on
inputs the validator rejects (where the source would crash on `undefined`),
and are modelled as stopping the day's loop. -/
def genSlots (inp : CalendarGenerationInput) (gen : Gen) (day : Nat) :
    Nat → GenState → Rng → List (Persona × CalendarPost) × GenState × Rng
  | 0, st, rng => ([], st, rng)
  | n + 1, st, rng =>
    match selectSubreddit inp.subreddits st.subCnt rng with
    | (none, rng) => ([], st, rng)
    | (some subreddit, rng) =>
      match selectPersona inp.personas st.pCnt (idOrEmpty subreddit.id) rng with
      | (none, rng) => ([], st, rng)
      | (some persona, rng) =>
        match selectTopic inp.chatgpt_queries st.usedTopics rng with
        | (none, rng) => ([], st, rng)
        | (some topic, rng) =>
          let (post, rng) :=
            generateOriginalPost gen persona subreddit topic day st.postIndex rng
          let sk := subKey subreddit
          let subCnt := bump st.subCnt sk
          let pCnt := bump st.pCnt (personaKey persona)
          let usedTopics := topic.query :: st.usedTopics
          let count := subCnt sk
          let limit := limitOf subreddit
          let warnings :=
            if count > limit then
              st.warnings ++ [Warning.overposting subreddit.name count limit]
            else st.warnings
          let st2 : GenState := ⟨subCnt, pCnt, usedTopics, warnings, st.postIndex + 1⟩
          let (rest, st3, rng) := genSlots inp gen day n st2 rng
          ((persona, post) :: rest, st3, rng)

/-- `getDaysOfWeek` (part_004 lines 185–195): the day numbers from
`weekStart` to `weekEnd` inclusive. -/
def getDaysOfWeek (weekStart weekEnd : Nat) : List Nat :=
  (List.range (weekEnd + 1 - weekStart)).map fun i => weekStart + i

/-- The day loop of `generatePosts` (part_004 lines 126–169):
`floor(N/7)` posts per day plus one extra on day indexes below `N mod 7`. -/
def genWeekAux (inp : CalendarGenerationInput) (gen : Gen) :
    List Nat → Nat → GenState → Rng →
    List (Persona × CalendarPost) × GenState × Rng
  | [], _, st, rng => ([], st, rng)
  | day :: rest, dayIndex, st, rng =>
      let postsThisDay :=
        inp.posts_per_week / 7 +
          (if dayIndex < inp.posts_per_week % 7 then 1 else 0)
      let (ps, st1, rng1) := genSlots inp gen day postsThisDay st rng
      let (rest2, st2, rng2) := genWeekAux inp gen rest (dayIndex + 1) st1 rng1
      (ps ++ rest2, st2, rng2)

/-- The final comparator of `generatePosts` (part_004 lines 175–179): by
date, then by time.  On the zero-padded ISO strings of the source this is
exactly the numeric lexicographic order modelled here. -/
def postLeB (a b : CalendarPost) : Bool :=
  decide (a.scheduled_date < b.scheduled_date) ||
    (a.scheduled_date == b.scheduled_date &&
      (decide (a.scheduled_hour < b.scheduled_hour) ||
        (a.scheduled_hour == b.scheduled_hour &&
          decide (a.scheduled_minute ≤ b.scheduled_minute))))

/-- `generatePosts` (part_004 lines 99–180): originals day by day, then the
comments, then a stable sort of everything by date and time
(`Array.prototype.sort` is stable).  Returns the posts together with the
warnings accumulated on the instance. -/
def generatePosts (inp : CalendarGenerationInput) (gen : Gen)
    (weekStart weekEnd : Nat) (rng : Rng) :
    List CalendarPost × List Warning × Rng :=
  let daysOfWeek := getDaysOfWeek weekStart weekEnd
  let (orig, st, rng) := genWeekAux inp gen daysOfWeek 0 initState rng
  let posts := orig.map Prod.snd
  let (comments, rng) := generateComments inp.personas inp.chatgpt_queries gen
    (idOrEmpty inp.company_id) posts rng
  let all := posts ++ comments
  (List.insertionSort (fun a b => postLeB a b = true) all, st.warnings, rng)

/-! ## The scorer (`calculateQualityScore`) -/

/-- First-occurrence de-duplication with an accumulator of seen elements
(kernel-reducible); models iterating over the keys of a `Map`/`Set` built by
insertion. -/
def uniqAux {α : Type} [DecidableEq α] : List α → List α → List α
  | [], _ => []
  | a :: as, seen =>
      if a ∈ seen then uniqAux as seen else a :: uniqAux as (a :: seen)

/-- The distinct elements of a list, first occurrences first. -/
def uniq {α : Type} [DecidableEq α] (l : List α) : List α := uniqAux l []

/-- `Math.max(...values)` for the non-empty count lists of the scorer. -/
def maxNatList (l : List Nat) : Nat := l.foldl Nat.max 0

/-- `Math.min(...values)` for the non-empty count lists of the scorer. -/
def minNatList : List Nat → Nat
  | [] => 0
  | a :: as => as.foldl Nat.min a

/-- `Math.round(x * 10) / 10`: JavaScript `Math.round` is
`floor(x + 0.5)`. -/
def jsRound1 (q : ℚ) : ℚ := (⌊q * 10 + 1 / 2⌋ : ℚ) / 10

/-- Section 1 of `calculateQualityScore` (part_004 lines 1301–1325): start at
2.0, subtract 1.5 per community whose original count exceeds its limit, reset
to 2.0 when there is no violation (a no-op kept from the source), and
contribute at least 0 (`Math.max(0, subredditScore)`).  A recorded
`subreddit_id` that matches no input subreddit (`find` returns `undefined`)
falls back to limit 2. -/
def scoreSubreddit (subs : List Subreddit) (originalPosts : List CalendarPost) : ℚ :=
  let subredditIds := uniq (originalPosts.map fun p => p.subreddit_id)
  let violates : String → Bool := fun sid =>
    let subreddit := subs.find? fun s => subKey s == sid
    let limit := match subreddit with | some s => limitOf s | none => 2
    decide ((originalPosts.filter fun p => p.subreddit_id == sid).length > limit)
  let overpostingViolations := (subredditIds.filter violates).length
  let subredditScoreRaw :=
    subredditIds.foldl (fun s sid => if violates sid then s - 3 / 2 else s) (2 : ℚ)
  let subredditScore :=
    if overpostingViolations = 0 then (2 : ℚ) else subredditScoreRaw
  max 0 subredditScore

/-- Section 2 of `calculateQualityScore` (part_004 lines 1327–1352): persona
spread over all posts, +0.3 bonus for three distinct personas, contribution
capped at 1.5 (`Math.min(1.5, personaScore)`). -/
def scorePersona (posts : List CalendarPost) : ℚ :=
  let personaIds := uniq (posts.map fun p => p.persona_id)
  let personaValues := personaIds.map fun pid =>
    (posts.filter fun p => p.persona_id == pid).length
  let personaSpread := maxNatList personaValues - minNatList personaValues
  let uniquePersonas := personaIds.length
  let personaScore0 : ℚ :=
    if personaSpread ≤ 1 then 3 / 2
    else if personaSpread ≤ 2 then 1
    else if personaSpread ≤ 3 then 1 / 2
    else 0
  let personaScore :=
    if uniquePersonas ≥ 3 then personaScore0 + 3 / 10 else personaScore0
  min (3 / 2) personaScore

/-- Section 3 of `calculateQualityScore` (part_004 lines 1354–1368): ratio of
distinct lower-cased trimmed original titles to originals. -/
def scoreTopic (originalPosts : List CalendarPost) : ℚ :=
  let uniqueTopics := uniq (originalPosts.map fun p => trimStr (lowerStr p.title))
  let topicDiversityRatio : ℚ :=
    (uniqueTopics.length : ℚ) / (originalPosts.length : ℚ)
  if topicDiversityRatio ≥ 9 / 10 then 3 / 2
  else if topicDiversityRatio ≥ 7 / 10 then 1
  else if topicDiversityRatio ≥ 1 / 2 then 1 / 2
  else 0

/-- Section 4 of `calculateQualityScore` (part_004 lines 1370–1385): the
comment-to-post ratio bands; the source ends with two separate `−0.5`
branches (too few / too many), kept here. -/
def scoreComment (originalPosts comments : List CalendarPost) : ℚ :=
  let commentRatio : ℚ := (comments.length : ℚ) / (originalPosts.length : ℚ)
  if 4 / 5 ≤ commentRatio ∧ commentRatio ≤ 6 / 5 then 3 / 2
  else if 3 / 5 ≤ commentRatio ∧ commentRatio ≤ 3 / 2 then 1
  else if 2 / 5 ≤ commentRatio ∧ commentRatio ≤ 2 then 1 / 2
  else if commentRatio < 3 / 10 then -(1 / 2)
  else -(1 / 2)

/-- Section 5 of `calculateQualityScore` (part_004 lines 1388–1403): distinct
`(date, hour)` buckets over all posts. -/
def scoreTime (posts : List CalendarPost) : ℚ :=
  let timeSlots := uniq (posts.map fun p => (p.scheduled_date, p.scheduled_hour))
  let timeSpread : ℚ := (timeSlots.length : ℚ) / (posts.length : ℚ)
  if timeSpread ≥ 7 / 10 then 1
  else if timeSpread ≥ 1 / 2 then 1 / 2
  else if timeSpread < 3 / 10 then -(1 / 2)
  else 0

/-- `calculateQualityScore` (part_004 lines 1291–1407): 5.0 base plus the
five section contributions of the source body, clamped to `[0, 10]` and
rounded to one decimal; a week with no originals scores 0.  Exact rational
arithmetic stands in for the doubles of the source: every constant is a small
decimal and the final rounding grid is 0.1, so the two agree on every input
the generator produces.  Floats appear nowhere else in the algorithm. -/
def calculateQualityScore (subs : List Subreddit) (posts : List CalendarPost) : ℚ :=
  let originalPosts := posts.filter fun p => p.post_type == PostType.original
  let comments := posts.filter fun p => p.post_type == PostType.comment
  if originalPosts.length = 0 then 0
  else
    let score :=
      5 + scoreSubreddit subs originalPosts + scorePersona posts +
        scoreTopic originalPosts + scoreComment originalPosts comments +
        scoreTime posts
    jsRound1 (max 0 (min 10 score))

/-! ## The scorer as worded by the specification (§4.5)

A second rendering of the scorer, following the specification's sentences
("start at 2.0; subtract 1.5 per community …; floor contribution at 0", and so
on), to be compared with `calculateQualityScore` above for the refinement
claim about the final score formula. -/

/-- Spec §4.5, community-limit compliance (0–2): `max 0 (2 − 1.5·violations)`
where a violation is a community whose final original-post count exceeds its
configured limit. -/
def communityComplianceSpec (subs : List Subreddit)
    (originalPosts : List CalendarPost) : ℚ :=
  let violations :=
    ((uniq (originalPosts.map fun p => p.subreddit_id)).filter fun sid =>
      let subreddit := subs.find? fun s => subKey s == sid
      let limit := match subreddit with | some s => limitOf s | none => 2
      decide ((originalPosts.filter fun p => p.subreddit_id == sid).length > limit)).length
  max 0 (2 - 3 / 2 * (violations : ℚ))

/-- Spec §4.5, persona variety (0–1.5): the spread table plus a `+0.3` bonus
for at least three distinct personas, capped at 1.5 total. -/
def personaVarietySpec (posts : List CalendarPost) : ℚ :=
  let personaIds := uniq (posts.map fun p => p.persona_id)
  let personaValues := personaIds.map fun pid =>
    (posts.filter fun p => p.persona_id == pid).length
  let personaSpread := maxNatList personaValues - minNatList personaValues
  let base : ℚ :=
    if personaSpread ≤ 1 then 3 / 2
    else if personaSpread ≤ 2 then 1
    else if personaSpread ≤ 3 then 1 / 2
    else 0
  min (3 / 2) (base + (if personaIds.length ≥ 3 then 3 / 10 else 0))

/-- Spec §4.5, topic diversity (0–1.5): ratio of distinct original titles to
originals, banded at 0.9 / 0.7 / 0.5. -/
def topicDiversitySpec (originalPosts : List CalendarPost) : ℚ :=
  let ratio : ℚ :=
    ((uniq (originalPosts.map fun p => trimStr (lowerStr p.title))).length : ℚ) /
      (originalPosts.length : ℚ)
  if ratio ≥ 9 / 10 then 3 / 2
  else if ratio ≥ 7 / 10 then 1
  else if ratio ≥ 1 / 2 then 1 / 2
  else 0

/-- Spec §4.5, comment ratio (−0.5 to +1.5): banded at `[0.8,1.2]`,
`[0.6,1.5]`, `[0.4,2.0]`, anything else `−0.5`. -/
def commentRatioSpec (originalPosts comments : List CalendarPost) : ℚ :=
  let ratio : ℚ := (comments.length : ℚ) / (originalPosts.length : ℚ)
  if 4 / 5 ≤ ratio ∧ ratio ≤ 6 / 5 then 3 / 2
  else if 3 / 5 ≤ ratio ∧ ratio ≤ 3 / 2 then 1
  else if 2 / 5 ≤ ratio ∧ ratio ≤ 2 then 1 / 2
  else -(1 / 2)

/-- Spec §4.5, time distribution (−0.5 to +1.0): distinct `(date, hour)`
buckets over total posts, banded at 0.7 / 0.5 / 0.3. -/
def timeDistributionSpec (posts : List CalendarPost) : ℚ :=
  let ratio : ℚ :=
    ((uniq (posts.map fun p => (p.scheduled_date, p.scheduled_hour))).length : ℚ) /
      (posts.length : ℚ)
  if ratio ≥ 7 / 10 then 1
  else if ratio ≥ 1 / 2 then 1 / 2
  else if ratio < 3 / 10 then -(1 / 2)
  else 0

/-- Spec §4.5, final score: `clamp(5.0 + sum of the five sub-scores, 0, 10)`
rounded to one decimal; zero original posts short-circuits to 0. -/
def qualityScoreSpec (subs : List Subreddit) (posts : List CalendarPost) : ℚ :=
  let originalPosts := posts.filter fun p => p.post_type == PostType.original
  let comments := posts.filter fun p => p.post_type == PostType.comment
  if originalPosts.length = 0 then 0
  else
    jsRound1 (max 0 (min 10
      (5 + communityComplianceSpec subs originalPosts + personaVarietySpec posts +
        topicDiversitySpec originalPosts + commentRatioSpec originalPosts comments +
        timeDistributionSpec posts)))

/-! ## Validator and entry point -/

/-- The positional duplicate filter of `validateInputs` (part_004 line 90):
`usernames.filter((u, i) => usernames.indexOf(u) !== i)`. -/
def dupList (l : List String) : List String :=
  (l.enum.filter fun iu => l.indexOf iu.2 != iu.1).map Prod.snd

/-- The duplicate-handle warning of `validateInputs` (part_004 lines 88–93):
one warning carrying the lower-cased duplicated usernames, when any exist. -/
def duplicateUsernameWarnings (personas : List Persona) : List Warning :=
  let usernames := personas.map fun p => lowerStr p.reddit_username
  let duplicates := dupList usernames
  if duplicates.isEmpty then [] else [Warning.duplicateUsernames duplicates]

/-- `validateInputs` (part_004 lines 71–94): the four fatal checks in source
order, then the non-fatal duplicate-username warning. -/
def validateInputs (inp : CalendarGenerationInput) :
    Except ValidationError (List Warning) :=
  if inp.personas.length < 2 then .error .notEnoughPersonas
  else if inp.subreddits.length = 0 then .error .noSubreddit
  else if inp.chatgpt_queries.length = 0 then .error .noQuery
  else if inp.posts_per_week < 1 then .error .postsPerWeekTooSmall
  else .ok (duplicateUsernameWarnings inp.personas)

/-- `startOfWeek(date, { weekStartsOn: 1 })` on day numbers whose multiples
of 7 are Mondays. -/
def startOfWeekMonday (d : Nat) : Nat := d - d % 7

/-- `generate` (part_004 lines 34–66): validate, normalise the week to
Monday–Sunday, generate the posts, score them, and return the result carrying
the accumulated warnings.  The `generated_at` timestamp is not modelled. -/
def generate (inp : CalendarGenerationInput) (gen : Gen) (rng : Rng) :
    Except ValidationError CalendarGenerationResult :=
  match validateInputs inp with
  | .error e => .error e
  | .ok warnings0 =>
      let weekStart := startOfWeekMonday inp.week_start_date
      let weekEnd := weekStart + 6
      let (posts, genWarnings, _) := generatePosts inp gen weekStart weekEnd rng
      let qualityScore := calculateQualityScore inp.subreddits posts
      .ok
        { calendar :=
            { company_id := idOrEmpty inp.company_id
              week_start_date := weekStart
              week_end_date := weekEnd
              posts_per_week := inp.posts_per_week
              quality_score := some qualityScore }
          posts := posts
          quality_score := qualityScore
          warnings := warnings0 ++ genWarnings }

/-! ## Instrumented views of a run

The annotated intermediate stages of `generate`, used to state properties
about which persona authored which post and which comments were built for
which original.  They recompute exactly the prefix of `generate`'s pipeline
(same functions, same random stream), so they agree with the returned post
list. -/

/-- The originals of a run, each paired with the persona chosen for it. -/
def runAuthors (inp : CalendarGenerationInput) (gen : Gen) (rng : Rng) :
    List (Persona × CalendarPost) :=
  let weekStart := startOfWeekMonday inp.week_start_date
  let days := getDaysOfWeek weekStart (weekStart + 6)
  (genWeekAux inp gen days 0 initState rng).1

/-- The conversation groups of a run: every original paired with the
annotated comments generated for it. -/
def runGroups (inp : CalendarGenerationInput) (gen : Gen) (rng : Rng) :
    List (CalendarPost × List (Persona × CalendarPost)) :=
  let weekStart := startOfWeekMonday inp.week_start_date
  let days := getDaysOfWeek weekStart (weekStart + 6)
  let step := genWeekAux inp gen days 0 initState rng
  let posts := step.1.map Prod.snd
  (genCommentsAux inp.personas inp.chatgpt_queries gen (idOrEmpty inp.company_id)
    posts [] step.2.2).1

/-! ## Concrete runs used by counterexamples and witnesses -/

/-- The injected external generator throws on every call. -/
def Gen.Throws (gen : Gen) : Prop :=
  (∀ a b c d, ∃ e, gen.title a b c d = .error e) ∧
  (∀ a b c d e f, ∃ e2, gen.content a b c d e f = .error e2) ∧
  (∀ a b c d e f h i, ∃ e2, gen.comment a b c d e f h i = .error e2)

/-- An external generator that throws on every call. -/
def failGen : Gen :=
  ⟨fun _ _ _ _ => .error "insufficient_quota",
   fun _ _ _ _ _ _ => .error "insufficient_quota",
   fun _ _ _ _ _ _ _ _ => .error "insufficient_quota"⟩

/-- The random stream every draw of which is `0.25`. -/
def rngQuarter : Rng := constRng ⟨1, 4⟩

/-- Three persisted personas, one roomy subreddit, three topics, three posts
per week: a valid request with at least three personas. -/
def inpC3 : CalendarGenerationInput :=
  { company_id := some "co"
    personas :=
      [⟨some "A", "Alice", "ua", "b", [], .professional⟩,
       ⟨some "B", "Bob", "ub", "b", [], .professional⟩,
       ⟨some "C", "Cara", "uc", "b", [], .professional⟩]
    subreddits := [⟨some "S", "startups", some 10⟩]
    chatgpt_queries :=
      [⟨"alpha tool", .question, "co"⟩,
       ⟨"beta tool", .question, "co"⟩,
       ⟨"gamma tool", .question, "co"⟩]
    posts_per_week := 3
    week_start_date := 0 }

/-- Two personas that arrive without persisted ids: a valid request using the
name fallback keys. -/
def inpC4 : CalendarGenerationInput :=
  { company_id := some "co"
    personas :=
      [⟨none, "Alice", "ua", "b", [], .professional⟩,
       ⟨none, "Bob", "ub", "b", [], .professional⟩]
    subreddits := [⟨some "S", "startups", some 10⟩]
    chatgpt_queries := [⟨"alpha tool", .question, "co"⟩]
    posts_per_week := 1
    week_start_date := 0 }

/-- The same id-less request, used by the sibling claim about duplicate
commenters. -/
def inpC5 : CalendarGenerationInput :=
  { company_id := some "co"
    personas :=
      [⟨none, "Alice", "ua", "b", [], .professional⟩,
       ⟨none, "Bob", "ub", "b", [], .professional⟩]
    subreddits := [⟨some "S", "startups", some 10⟩]
    chatgpt_queries := [⟨"alpha tool", .question, "co"⟩]
    posts_per_week := 1
    week_start_date := 0 }

/-! ## Accessors and fixtures for concrete witnesses -/

/-- Dummy persona for `getD` defaults. -/
def defaultPersona : Persona := ⟨none, "", "", "", [], .casual⟩

/-- Dummy post for `getD` defaults. -/
def defaultPost : CalendarPost :=
  { calendar_id := "", persona_id := "", subreddit_id := "", title := ""
    content := "", scheduled_date := 0, scheduled_hour := 0
    scheduled_minute := 0, post_type := .original }

/-- Dummy result for the projection out of `Except`. -/
def defaultResult : CalendarGenerationResult :=
  { calendar :=
      { company_id := "", week_start_date := 0, week_end_date := 0
        posts_per_week := 0 }
    posts := [], quality_score := 0, warnings := [] }

/-- The payload of a successful generation (dummy on a validation error). -/
def okResult (x : Except ValidationError CalendarGenerationResult) :
    CalendarGenerationResult :=
  match x with
  | .ok r => r
  | .error _ => defaultResult

/-- The posts of a successful generation. -/
def okPosts (x : Except ValidationError CalendarGenerationResult) :
    List CalendarPost :=
  (okResult x).posts

/-- The `i`-th post of a successful generation. -/
def postAt (x : Except ValidationError CalendarGenerationResult) (i : Nat) :
    CalendarPost :=
  (okPosts x).getD i defaultPost

/-- The `i`-th conversation group of a run. -/
def groupAt (inp : CalendarGenerationInput) (gen : Gen) (rng : Rng) (i : Nat) :
    CalendarPost × List (Persona × CalendarPost) :=
  (runGroups inp gen rng).getD i (defaultPost, [])

/-- The Monday of the requested week. -/
def weekStartOf (inp : CalendarGenerationInput) : Nat :=
  startOfWeekMonday inp.week_start_date

/-- The random stream every draw of which is `0`. -/
def rngZero : Rng := constRng ⟨0, 1⟩

/-- A small valid request with persisted ids, used by witnesses. -/
def inpW : CalendarGenerationInput :=
  { company_id := some "co"
    personas :=
      [⟨some "A", "Alice", "ua", "b", [], .professional⟩,
       ⟨some "B", "Bob", "ub", "b", [], .professional⟩]
    subreddits := [⟨some "S", "startups", some 10⟩]
    chatgpt_queries := [⟨"alpha tool", .question, "co"⟩]
    posts_per_week := 2
    week_start_date := 0 }

/-- A valid request whose two personas share a case-insensitive handle. -/
def inpDup : CalendarGenerationInput :=
  { company_id := some "co"
    personas :=
      [⟨some "A", "Alice", "Sam", "b", [], .professional⟩,
       ⟨some "B", "Bob", "sAM", "b", [], .professional⟩]
    subreddits := [⟨some "S", "startups", some 10⟩]
    chatgpt_queries := [⟨"alpha tool", .question, "co"⟩]
    posts_per_week := 1
    week_start_date := 0 }

/-- An invalid request: no personas at all. -/
def inpBad : CalendarGenerationInput :=
  { company_id := some "co"
    personas := []
    subreddits := [⟨some "S", "startups", some 10⟩]
    chatgpt_queries := [⟨"alpha tool", .question, "co"⟩]
    posts_per_week := 1
    week_start_date := 0 }

/-- The number of slots of day index `m`:
`postsPerDay + (dayIndex < extraPosts ? 1 : 0)` (part_004 line 128). -/
def slotCount (inp : CalendarGenerationInput) (m : Nat) : Nat :=
  inp.posts_per_week / 7 + (if m < inp.posts_per_week % 7 then 1 else 0)

/-- Total slots of `k` consecutive days starting at day index `j`. -/
def sumSlots (inp : CalendarGenerationInput) : Nat → Nat → Nat
  | _, 0 => 0
  | j, k + 1 => slotCount inp j + sumSlots inp (j + 1) k

/-- The flat comment list of a run (the per-group comments in order). -/
def runComments (inp : CalendarGenerationInput) (gen : Gen) (rng : Rng) :
    List CalendarPost :=
  (runGroups inp gen rng).flatMap fun g => g.2.map Prod.snd

/-- The shape every comment built by `commentLoopA` has: kind `comment`,
parent reference equal to the parent post's `id`, the parent's date, an hour
clamped to 21, and no title or title tag. -/
def commentShape (post c : CalendarPost) : Prop :=
  c.post_type = PostType.comment ∧
  c.parent_post_id = post.id ∧
  c.scheduled_date = post.scheduled_date ∧
  c.scheduled_hour ≤ 21 ∧
  c.title = "" ∧
  c.title_source = none

/-! # Theorems

## The random stream is only ever advanced

Every pipeline stage returns a stream with the same underlying sequence;
these lemmas transport stream validity through the pipeline. -/

theorem seq_skip (n : Nat) (g : Rng) : (Rng.skip n g).seq = g.seq := by
  induction n generalizing g with
  | zero => rfl
  | succ k ih => exact ih g.next.2

theorem seq_titleTemplate (t : ChatGPTQuery) (p : Persona) (g : Rng) :
    (generatePostTitleTemplate t p g).2.seq = g.seq := rfl

theorem seq_contentTemplate (t : ChatGPTQuery) (p : Persona) (s : Subreddit)
    (g : Rng) : (generatePostContentTemplate t p s g).2.seq = g.seq := by
  unfold generatePostContentTemplate
  split
  · rfl
  · split <;> rfl

theorem seq_commentTemplate (post : CalendarPost) (c : Persona)
    (t : ChatGPTQuery) (g : Rng) :
    (generateCommentContentTemplate post c t g).2.seq = g.seq := by
  simp only [generateCommentContentTemplate, seq_skip]
  rfl

theorem seq_commentText (gen : Gen) (post : CalendarPost) (c : Persona)
    (t : ChatGPTQuery) (g : Rng) :
    (generateCommentText gen post c t g).2.2.seq = g.seq := by
  unfold generateCommentText
  split
  rename_i r g1 heq
  have hg1 : g1.seq = g.seq := by
    have h : (g.next).2 = g1 := by rw [heq]
    rw [← h]; rfl
  split
  all_goals
    split
    rename_i tt gt heqt
    have hgt : gt.seq = g.seq := by
      have h : (generateCommentContentTemplate post c t g1).2 = gt := by rw [heqt]
      rw [← h, seq_commentTemplate]
      exact hg1
    dsimp only
    split
    · exact hg1
    · exact hgt

theorem seq_titleStep (gen : Gen) (p : Persona) (s : Subreddit)
    (t : ChatGPTQuery) (g : Rng) : (titleStep gen p s t g).2.2.seq = g.seq := by
  unfold titleStep
  split
  · rfl
  · exact seq_titleTemplate t p g

theorem seq_contentStep (gen : Gen) (p : Persona) (s : Subreddit)
    (t : ChatGPTQuery) (g : Rng) : (contentStep gen p s t g).2.2.seq = g.seq := by
  unfold contentStep
  split
  · rfl
  · exact seq_contentTemplate t p s g

theorem seq_generateOriginalPost (gen : Gen) (p : Persona) (s : Subreddit)
    (t : ChatGPTQuery) (d i : Nat) (g : Rng) :
    (generateOriginalPost gen p s t d i g).2.seq = g.seq := by
  unfold generateOriginalPost
  split
  rename_i t1 s1 g1 heq1
  have hg1 : g1.seq = g.seq := by
    have h : (titleStep gen p s t g).2.2 = g1 := by rw [heq1]
    rw [← h, seq_titleStep]
  split
  rename_i t2 s2 g2 heq2
  have hg2 : g2.seq = g1.seq := by
    have h : (contentStep gen p s t g1).2.2 = g2 := by rw [heq2]
    rw [← h, seq_contentStep]
  exact hg2.trans hg1

theorem seq_selectSubreddit (subs : List Subreddit) (cnt : String → Nat)
    (g : Rng) : (selectSubreddit subs cnt g).2.seq = g.seq := by
  unfold selectSubreddit
  split
  rename_i r g1 heq
  have hg1 : g1.seq = g.seq := by
    have h : (g.next).2 = g1 := by rw [heq]
    rw [← h]; rfl
  dsimp only
  split <;> first | rfl | exact hg1

theorem seq_selectPersona (ps : List Persona) (cnt : String → Nat) (sid : String)
    (g : Rng) : (selectPersona ps cnt sid g).2.seq = g.seq := by
  unfold selectPersona
  split
  rename_i r g1 heq
  have hg1 : g1.seq = g.seq := by
    have h : (g.next).2 = g1 := by rw [heq]
    rw [← h]; rfl
  dsimp only
  split <;> first | rfl | exact hg1

theorem seq_selectTopic (qs : List ChatGPTQuery) (used : List String)
    (g : Rng) : (selectTopic qs used g).2.seq = g.seq := by
  unfold selectTopic
  dsimp only
  split <;> rfl

theorem seq_commentLoopA (gen : Gen) (qs : List ChatGPTQuery) (cid : String)
    (others : List Persona) (acc : List CalendarPost) (post : CalendarPost) :
    ∀ (n i : Nat) (sofar : List (Persona × CalendarPost)) (g : Rng),
      (commentLoopA gen qs cid others acc post n i sofar g).2.seq = g.seq := by
  intro n
  induction n with
  | zero => intro i sofar g; rfl
  | succ k ih =>
      intro i sofar g
      unfold commentLoopA
      split
      rename_i r g1 heq
      have hg1 : g1.seq = g.seq := by
        have h : (g.next).2 = g1 := by rw [heq]
        rw [← h]; rfl
      dsimp only [Rng.next]
      split
      · rfl
      · exact (ih _ _ _).trans ((seq_commentText gen post _ _ _).trans hg1)

theorem seq_commentsForPost (ps : List Persona) (qs : List ChatGPTQuery)
    (gen : Gen) (cid : String) (acc : List CalendarPost) (post : CalendarPost)
    (g : Rng) : (commentsForPost ps qs gen cid acc post g).2.seq = g.seq := by
  unfold commentsForPost
  split
  · rfl
  · split
    rename_i r g1 heq
    have hg1 : g1.seq = g.seq := by
      have h : (g.next).2 = g1 := by rw [heq]
      rw [← h]; rfl
    dsimp only
    split
    · rfl
    · exact (seq_commentLoopA gen qs cid _ acc post _ 0 [] g1).trans hg1

theorem seq_genCommentsAux (ps : List Persona) (qs : List ChatGPTQuery)
    (gen : Gen) (cid : String) :
    ∀ (posts acc : List CalendarPost) (g : Rng),
      (genCommentsAux ps qs gen cid posts acc g).2.seq = g.seq := by
  intro posts
  induction posts with
  | nil => intro acc g; rfl
  | cons post rest ih =>
      intro acc g
      unfold genCommentsAux
      rw [ih]
      exact seq_commentsForPost ps qs gen cid acc post g

theorem seq_genSlots (inp : CalendarGenerationInput) (gen : Gen) (day : Nat) :
    ∀ (n : Nat) (st : GenState) (g : Rng),
      (genSlots inp gen day n st g).2.2.seq = g.seq := by
  intro n
  induction n with
  | zero => intro st g; rfl
  | succ k ih =>
      intro st g
      unfold genSlots
      split
      · rename_i g1 heq
        have h : (selectSubreddit inp.subreddits st.subCnt g).2 = g1 := by rw [heq]
        rw [show ((([] : List (Persona × CalendarPost)), st, g1) :
              List (Persona × CalendarPost) × GenState × Rng).2.2.seq = g1.seq from rfl,
           ← h, seq_selectSubreddit]
      · rename_i sub g1 heq
        have hg1 : g1.seq = g.seq := by
          have h : (selectSubreddit inp.subreddits st.subCnt g).2 = g1 := by rw [heq]
          rw [← h, seq_selectSubreddit]
        split
        · rename_i g2 heq2
          have hg2 : g2.seq = g1.seq := by
            have h : (selectPersona inp.personas st.pCnt (idOrEmpty sub.id) g1).2 = g2 := by
              rw [heq2]
            rw [← h, seq_selectPersona]
          exact hg2.trans hg1
        · rename_i per g2 heq2
          have hg2 : g2.seq = g1.seq := by
            have h : (selectPersona inp.personas st.pCnt (idOrEmpty sub.id) g1).2 = g2 := by
              rw [heq2]
            rw [← h, seq_selectPersona]
          split
          · rename_i g3 heq3
            have hg3 : g3.seq = g2.seq := by
              have h : (selectTopic inp.chatgpt_queries st.usedTopics g2).2 = g3 := by
                rw [heq3]
              rw [← h, seq_selectTopic]
            exact hg3.trans (hg2.trans hg1)
          · rename_i top g3 heq3
            have hg3 : g3.seq = g2.seq := by
              have h : (selectTopic inp.chatgpt_queries st.usedTopics g2).2 = g3 := by
                rw [heq3]
              rw [← h, seq_selectTopic]
            exact (ih _ _).trans
              ((seq_generateOriginalPost gen per sub top day st.postIndex g3).trans
                (hg3.trans (hg2.trans hg1)))

theorem seq_genWeekAux (inp : CalendarGenerationInput) (gen : Gen) :
    ∀ (days : List Nat) (j : Nat) (st : GenState) (g : Rng),
      (genWeekAux inp gen days j st g).2.2.seq = g.seq := by
  intro days
  induction days with
  | nil => intro j st g; rfl
  | cons day rest ih =>
      intro j st g
      unfold genWeekAux
      rw [ih]
      exact seq_genSlots inp gen day _ st g

/-! ## Validity transfer and basic facts -/

theorem valid_of_seq_eq {g h : Rng} (he : g.seq = h.seq) (hv : h.Valid) :
    g.Valid := by
  intro n
  rw [he]
  exact hv n

/-- The `commentHour >= 22` roll-over branch can never be taken, because the
hour was clamped to `min 21 _` one line earlier. -/
theorem roll_branch_unreachable {α : Sort u} (x : Nat) (a b : α) :
    (if 22 ≤ min 21 x then a else b) = b := by
  have h := Nat.min_le_left 21 x
  exact if_neg fun hc => absurd (hc.trans h) (by decide)

theorem getD_mem {α : Type} {l : List α} {d : α} (i : Nat) (hd : d ∈ l) :
    l.getD i d ∈ l := by
  rcases h : l[i]? with _ | x
  · simp [List.getD, h, hd]
  · have hx := List.getElem?_mem h
    simp [List.getD, h, hx]

/-! ## Shape of every generated comment -/

theorem commentLoopA_mem (gen : Gen) (qs : List ChatGPTQuery) (cid : String)
    (others : List Persona) (acc : List CalendarPost) (post : CalendarPost) :
    ∀ (n i : Nat) (sofar : List (Persona × CalendarPost)) (g : Rng),
      ∀ pc ∈ (commentLoopA gen qs cid others acc post n i sofar g).1,
        pc ∈ sofar ∨ commentShape post pc.2 := by
  intro n
  induction n with
  | zero => intro i sofar g pc hpc; exact Or.inl hpc
  | succ k ih =>
      intro i sofar g pc hpc
      unfold commentLoopA at hpc
      split at hpc
      rename_i r g1 heq
      dsimp only [Rng.next] at hpc
      simp only [roll_branch_unreachable] at hpc
      split at hpc
      · exact Or.inl hpc
      · split at hpc
        all_goals
          try split at hpc
          all_goals
            rcases ih _ _ _ pc hpc with hin | hΦ
            · rcases List.mem_append.mp hin with h1 | h2
              · exact Or.inl h1
              · right
                rw [List.mem_singleton.mp h2]
                exact ⟨rfl, rfl, rfl, Nat.min_le_left _ _, rfl, rfl⟩
            · exact Or.inr hΦ

theorem commentsForPost_mem (ps : List Persona) (qs : List ChatGPTQuery)
    (gen : Gen) (cid : String) (acc : List CalendarPost) (post : CalendarPost)
    (g : Rng) :
    ∀ pc ∈ (commentsForPost ps qs gen cid acc post g).1, commentShape post pc.2 := by
  intro pc hpc
  unfold commentsForPost at hpc
  split at hpc
  · exact absurd hpc (by simp)
  · split at hpc
    rename_i r g1 heq
    dsimp only at hpc
    split at hpc
    · exact absurd hpc (by simp)
    · rcases commentLoopA_mem gen qs cid _ acc post _ 0 [] g1 pc hpc with h | h
      · exact absurd h (by simp)
      · exact h

theorem genCommentsAux_firsts (ps : List Persona) (qs : List ChatGPTQuery)
    (gen : Gen) (cid : String) :
    ∀ (posts acc : List CalendarPost) (g : Rng),
      (genCommentsAux ps qs gen cid posts acc g).1.map Prod.fst = posts := by
  intro posts
  induction posts with
  | nil => intro acc g; rfl
  | cons post rest ih =>
      intro acc g
      unfold genCommentsAux
      simp [ih]

theorem genCommentsAux_mem (ps : List Persona) (qs : List ChatGPTQuery)
    (gen : Gen) (cid : String) :
    ∀ (posts acc : List CalendarPost) (g : Rng),
      ∀ grp ∈ (genCommentsAux ps qs gen cid posts acc g).1,
        ∀ pc ∈ grp.2, commentShape grp.1 pc.2 := by
  intro posts
  induction posts with
  | nil => intro acc g grp hgrp; exact absurd hgrp (by simp [genCommentsAux])
  | cons post rest ih =>
      intro acc g grp hgrp
      unfold genCommentsAux at hgrp
      dsimp only at hgrp
      rcases List.mem_cons.mp hgrp with h | h
      · intro pc hpc
        subst h
        exact commentsForPost_mem ps qs gen cid acc post g pc hpc
      · exact ih _ _ grp h

/-! ## The three selections succeed on validated inputs -/

theorem selectSubreddit_isSome (subs : List Subreddit) (cnt : String → Nat)
    (g : Rng) (hs : subs ≠ []) : (selectSubreddit subs cnt g).1.isSome := by
  unfold selectSubreddit
  dsimp only [Rng.next]
  split
  · rename_i havail
    rcases hsort : List.insertionSort
        (fun a b => cnt (subKey a) ≤ cnt (subKey b)) subs with _ | ⟨a, t⟩
    · exfalso
      have hlen := congrArg List.length hsort
      rw [List.length_insertionSort] at hlen
      exact hs (List.length_eq_zero.mp hlen)
    · simp [hsort]
  · simp

theorem get?_isSome_of_lt {α : Type} {l : List α} {i : Nat} (h : i < l.length) :
    (l.get? i).isSome := by
  rw [List.get?_eq_getElem?, List.getElem?_eq_getElem h]
  rfl

theorem selectPersona_isSome (ps : List Persona) (cnt : String → Nat)
    (sid : String) (g : Rng) (hp : ps ≠ []) (hv : g.Valid) :
    (selectPersona ps cnt sid g).1.isSome := by
  unfold selectPersona
  dsimp only [Rng.next]
  have hlen : (List.insertionSort
      (fun a b => cnt (personaKey a) ≤ cnt (personaKey b)) ps).length = ps.length :=
    List.length_insertionSort _ ps
  split
  · rcases hsort : List.insertionSort
        (fun a b => cnt (personaKey a) ≤ cnt (personaKey b)) ps with _ | ⟨a, t⟩
    · exfalso
      rw [hsort] at hlen
      exact hp (List.length_eq_zero.mp hlen.symm)
    · simp [hsort]
  · apply get?_isSome_of_lt
    apply Frac.floorMul_lt (hv _)
    rw [List.length_take, hlen]
    have : 0 < ps.length := List.length_pos.mpr hp
    omega

theorem selectTopic_isSome (qs : List ChatGPTQuery) (used : List String)
    (g : Rng) (hq : qs ≠ []) (hv : g.Valid) :
    (selectTopic qs used g).1.isSome := by
  unfold selectTopic
  dsimp only [Rng.next]
  split
  · exact get?_isSome_of_lt (Frac.floorMul_lt (hv _) (List.length_pos.mpr hq))
  · rename_i hcons
    refine get?_isSome_of_lt (Frac.floorMul_lt (hv _) (List.length_pos.mpr ?_))
    intro hnil
    exact hcons hnil

/-! ## Every slot of a validated request yields one original of its day -/

theorem generateOriginalPost_fields (gen : Gen) (p : Persona) (s : Subreddit)
    (t : ChatGPTQuery) (d i : Nat) (g : Rng) :
    (generateOriginalPost gen p s t d i g).1.post_type = PostType.original ∧
    (generateOriginalPost gen p s t d i g).1.scheduled_date = d ∧
    (generateOriginalPost gen p s t d i g).1.persona_id = idOrEmpty p.id ∧
    (generateOriginalPost gen p s t d i g).1.subreddit_id = idOrEmpty s.id ∧
    (generateOriginalPost gen p s t d i g).1.id = none ∧
    (∃ ts, (generateOriginalPost gen p s t d i g).1.title_source = some ts) ∧
    ∃ cs, (generateOriginalPost gen p s t d i g).1.content_source = some cs := by
  unfold generateOriginalPost
  split
  rename_i t1 s1 g1 heq1
  split
  rename_i t2 s2 g2 heq2
  dsimp only [Rng.next]
  exact ⟨rfl, rfl, rfl, rfl, rfl, ⟨s1, rfl⟩, ⟨s2, rfl⟩⟩

theorem genSlots_spec (inp : CalendarGenerationInput) (gen : Gen) (day : Nat)
    (hs : inp.subreddits ≠ []) (hp : inp.personas ≠ [])
    (hq : inp.chatgpt_queries ≠ []) :
    ∀ (n : Nat) (st : GenState) (g : Rng), g.Valid →
      (genSlots inp gen day n st g).1.length = n ∧
      ∀ ap ∈ (genSlots inp gen day n st g).1,
        ap.2.post_type = PostType.original ∧ ap.2.scheduled_date = day ∧
        ap.2.id = none := by
  intro n
  induction n with
  | zero =>
      intro st g _
      exact ⟨rfl, by intro ap hap; exact absurd hap (by simp [genSlots])⟩
  | succ k ih =>
      intro st g hv
      unfold genSlots
      split
      · rename_i g1 heq
        have h := selectSubreddit_isSome inp.subreddits st.subCnt g hs
        rw [heq] at h
        exact absurd h (by simp)
      · rename_i sub g1 heq
        have hv1 : g1.Valid := valid_of_seq_eq (by
          have h : (selectSubreddit inp.subreddits st.subCnt g).2 = g1 := by rw [heq]
          rw [← h, seq_selectSubreddit]) hv
        split
        · rename_i g2 heq2
          have h := selectPersona_isSome inp.personas st.pCnt (idOrEmpty sub.id) g1 hp hv1
          rw [heq2] at h
          exact absurd h (by simp)
        · rename_i per g2 heq2
          have hv2 : g2.Valid := valid_of_seq_eq (by
            have h : (selectPersona inp.personas st.pCnt (idOrEmpty sub.id) g1).2 = g2 := by
              rw [heq2]
            rw [← h, seq_selectPersona]) hv1
          split
          · rename_i g3 heq3
            have h := selectTopic_isSome inp.chatgpt_queries st.usedTopics g2 hq hv2
            rw [heq3] at h
            exact absurd h (by simp)
          · rename_i top g3 heq3
            have hv3 : g3.Valid := valid_of_seq_eq (by
              have h : (selectTopic inp.chatgpt_queries st.usedTopics g2).2 = g3 := by
                rw [heq3]
              rw [← h, seq_selectTopic]) hv2
            have hv4 : ((generateOriginalPost gen per sub top day st.postIndex g3).2).Valid :=
              valid_of_seq_eq (seq_generateOriginalPost gen per sub top day st.postIndex g3) hv3
            have hfields := generateOriginalPost_fields gen per sub top day st.postIndex g3
            refine ⟨?_, ?_⟩
            · show ((per, (generateOriginalPost gen per sub top day st.postIndex g3).1) ::
                  (genSlots inp gen day k _
                    (generateOriginalPost gen per sub top day st.postIndex g3).2).1).length = k + 1
              rw [List.length_cons]
              exact congrArg Nat.succ (ih _ _ hv4).1
            · show ∀ ap ∈ (per, (generateOriginalPost gen per sub top day st.postIndex g3).1) ::
                  (genSlots inp gen day k _
                    (generateOriginalPost gen per sub top day st.postIndex g3).2).1,
                ap.2.post_type = PostType.original ∧ ap.2.scheduled_date = day ∧ ap.2.id = none
              intro ap hap
              rcases List.mem_cons.mp hap with h1 | h1
              · rw [h1]
                exact ⟨hfields.1, hfields.2.1, hfields.2.2.2.2.1⟩
              · exact (ih _ _ hv4).2 ap h1

theorem genWeekAux_spec (inp : CalendarGenerationInput) (gen : Gen)
    (hs : inp.subreddits ≠ []) (hp : inp.personas ≠ [])
    (hq : inp.chatgpt_queries ≠ []) :
    ∀ (days : List Nat) (j : Nat) (st : GenState) (g : Rng), g.Valid →
      (genWeekAux inp gen days j st g).1.length = sumSlots inp j days.length ∧
      (∀ ap ∈ (genWeekAux inp gen days j st g).1,
          ap.2.post_type = PostType.original ∧ ap.2.id = none ∧
          ap.2.scheduled_date ∈ days) ∧
      (days.Nodup → ∀ (i : Nat) (hi : i < days.length),
        ((genWeekAux inp gen days j st g).1.filter fun ap =>
            ap.2.scheduled_date == days.get ⟨i, hi⟩).length = slotCount inp (j + i)) := by
  intro days
  induction days with
  | nil =>
      intro j st g _
      refine ⟨rfl, ?_, ?_⟩
      · intro ap hap
        exact absurd hap (by simp [genWeekAux])
      · intro _ i hi
        exact absurd hi (by simp)
  | cons day rest ih =>
      intro j st g hv
      have hg1 : ((genSlots inp gen day (slotCount inp j) st g).2.2).Valid :=
        valid_of_seq_eq (seq_genSlots inp gen day (slotCount inp j) st g) hv
      obtain ⟨hAlen, hAmem⟩ :=
        genSlots_spec inp gen day hs hp hq (slotCount inp j) st g hv
      obtain ⟨hBlen, hBmem, hBcnt⟩ :=
        ih (j + 1) ((genSlots inp gen day (slotCount inp j) st g).2.1)
          ((genSlots inp gen day (slotCount inp j) st g).2.2) hg1
      have hres : (genWeekAux inp gen (day :: rest) j st g).1 =
          (genSlots inp gen day (slotCount inp j) st g).1 ++
            (genWeekAux inp gen rest (j + 1)
              ((genSlots inp gen day (slotCount inp j) st g).2.1)
              ((genSlots inp gen day (slotCount inp j) st g).2.2)).1 := rfl
      refine ⟨?_, ?_, ?_⟩
      · rw [hres, List.length_append, hAlen, hBlen]
        rfl
      · intro ap hap
        rw [hres] at hap
        rcases List.mem_append.mp hap with h1 | h1
        · obtain ⟨ht, hd, hid⟩ := hAmem ap h1
          exact ⟨ht, hid, by rw [hd]; exact List.mem_cons_self day rest⟩
        · obtain ⟨ht, hid, hd⟩ := hBmem ap h1
          exact ⟨ht, hid, List.mem_cons_of_mem day hd⟩
      · intro hnd i hi
        obtain ⟨hday, hndr⟩ := List.nodup_cons.mp hnd
        rw [hres, List.filter_append, List.length_append]
        cases i with
        | zero =>
            have h1 : ((genSlots inp gen day (slotCount inp j) st g).1.filter fun ap =>
                ap.2.scheduled_date == (day :: rest).get ⟨0, hi⟩) =
                (genSlots inp gen day (slotCount inp j) st g).1 := by
              apply List.filter_eq_self.mpr
              intro ap hap
              have hd := (hAmem ap hap).2.1
              show (ap.2.scheduled_date == day) = true
              simp [hd]
            have h2 : ((genWeekAux inp gen rest (j + 1)
                ((genSlots inp gen day (slotCount inp j) st g).2.1)
                ((genSlots inp gen day (slotCount inp j) st g).2.2)).1.filter fun ap =>
                ap.2.scheduled_date == (day :: rest).get ⟨0, hi⟩) = [] := by
              apply List.filter_eq_nil_iff.mpr
              intro ap hap hbeq
              have hd := (hBmem ap hap).2.2
              have hbeq' : ap.2.scheduled_date = day := by
                have : (ap.2.scheduled_date == day) = true := hbeq
                exact beq_iff_eq.mp this
              rw [hbeq'] at hd
              exact hday hd
            rw [h1, h2, hAlen]
            simp
        | succ i' =>
            have hi' : i' < rest.length := by
              have := hi
              simp only [List.length_cons] at this
              omega
            have h1 : ((genSlots inp gen day (slotCount inp j) st g).1.filter fun ap =>
                ap.2.scheduled_date == (day :: rest).get ⟨i' + 1, hi⟩) = [] := by
              apply List.filter_eq_nil_iff.mpr
              intro ap hap hbeq
              have hd := (hAmem ap hap).2.1
              have hbeq' : ap.2.scheduled_date = rest.get ⟨i', hi'⟩ := by
                have : (ap.2.scheduled_date == rest.get ⟨i', hi'⟩) = true := hbeq
                exact beq_iff_eq.mp this
              rw [hd] at hbeq'
              rw [hbeq'] at hday
              exact hday (List.get_mem rest i' hi')
            have h2 := hBcnt hndr i' hi'
            have harith : j + (i' + 1) = j + 1 + i' := by omega
            rw [h1, harith]
            simpa using h2

theorem sumSlots_seven (inp : CalendarGenerationInput) :
    sumSlots inp 0 7 = inp.posts_per_week := by
  have hmod : inp.posts_per_week % 7 < 7 := Nat.mod_lt _ (by norm_num)
  have hdiv := Nat.div_add_mod inp.posts_per_week 7
  simp only [sumSlots, slotCount]
  split_ifs <;> omega

/-- The post list of a successful run is the stable sort of the originals
followed by the flat comment list. -/
theorem generatePosts_posts (inp : CalendarGenerationInput) (gen : Gen)
    (rng : Rng) :
    (generatePosts inp gen (weekStartOf inp) (weekStartOf inp + 6) rng).1 =
      List.insertionSort (fun a b => postLeB a b = true)
        ((runAuthors inp gen rng).map Prod.snd ++ runComments inp gen rng) := rfl

/-- On a validated request `generate` succeeds, and the result's fields are
the pipeline values. -/
theorem generate_ok_spec (inp : CalendarGenerationInput) (gen : Gen) (rng : Rng)
    (hp : 2 ≤ inp.personas.length) (hs : inp.subreddits ≠ [])
    (hq : inp.chatgpt_queries ≠ []) (hn : 1 ≤ inp.posts_per_week) :
    generate inp gen rng = Except.ok
      { calendar :=
          { company_id := idOrEmpty inp.company_id
            week_start_date := weekStartOf inp
            week_end_date := weekStartOf inp + 6
            posts_per_week := inp.posts_per_week
            quality_score := some (calculateQualityScore inp.subreddits
              (generatePosts inp gen (weekStartOf inp) (weekStartOf inp + 6) rng).1) }
        posts := (generatePosts inp gen (weekStartOf inp) (weekStartOf inp + 6) rng).1
        quality_score := calculateQualityScore inp.subreddits
          (generatePosts inp gen (weekStartOf inp) (weekStartOf inp + 6) rng).1
        warnings := duplicateUsernameWarnings inp.personas ++
          (generatePosts inp gen (weekStartOf inp) (weekStartOf inp + 6) rng).2.1 } := by
  unfold generate validateInputs
  rw [if_neg (by omega), if_neg (fun h => hs (List.length_eq_zero.mp h)),
    if_neg (fun h => hq (List.length_eq_zero.mp h)), if_neg (by omega)]
  rfl

/-- The originals of the returned, sorted post list number exactly
`posts_per_week`, distributed `floor(N/7)` per day with one extra on the
first `N mod 7` day indexes. -/
theorem generatePosts_original_counts (inp : CalendarGenerationInput)
    (gen : Gen) (rng : Rng) (hp2 : 2 ≤ inp.personas.length)
    (hs : inp.subreddits ≠ []) (hq : inp.chatgpt_queries ≠ [])
    (hv : rng.Valid) :
    (((generatePosts inp gen (weekStartOf inp) (weekStartOf inp + 6) rng).1.filter
        fun p => p.post_type == PostType.original).length = inp.posts_per_week) ∧
    ∀ d : Nat, d < 7 →
      (((generatePosts inp gen (weekStartOf inp) (weekStartOf inp + 6) rng).1.filter
          fun p => p.post_type == PostType.original &&
            p.scheduled_date == weekStartOf inp + d).length = slotCount inp d) := by
  have hp' : inp.personas ≠ [] := by
    intro h
    rw [h] at hp2
    simp at hp2
  have hdays : getDaysOfWeek (weekStartOf inp) (weekStartOf inp + 6) =
      (List.range 7).map (fun i => weekStartOf inp + i) := by
    unfold getDaysOfWeek
    rw [show weekStartOf inp + 6 + 1 - weekStartOf inp = 7 from by omega]
  have hAuthors : runAuthors inp gen rng =
      (genWeekAux inp gen ((List.range 7).map (fun i => weekStartOf inp + i))
        0 initState rng).1 := by
    show (genWeekAux inp gen (getDaysOfWeek (weekStartOf inp) (weekStartOf inp + 6))
        0 initState rng).1 = _
    rw [hdays]
  obtain ⟨hlen, hmem, hcnt⟩ := genWeekAux_spec inp gen hs hp' hq
    ((List.range 7).map (fun i => weekStartOf inp + i)) 0 initState rng hv
  rw [← hAuthors] at hlen hmem hcnt
  have hnodup : ((List.range 7).map (fun i => weekStartOf inp + i)).Nodup :=
    (List.nodup_range 7).map fun a b hab => by omega
  have hcomment : ∀ c ∈ runComments inp gen rng, c.post_type = PostType.comment := by
    intro c hc
    rcases List.mem_flatMap.mp hc with ⟨grp, hgrp, hcg⟩
    rcases List.mem_map.mp hcg with ⟨pc, hpc, hpceq⟩
    have hshape := genCommentsAux_mem inp.personas inp.chatgpt_queries gen
      (idOrEmpty inp.company_id)
      ((genWeekAux inp gen
        (getDaysOfWeek (weekStartOf inp) (weekStartOf inp + 6)) 0 initState rng).1.map
          Prod.snd) [] _ grp hgrp pc hpc
    rw [← hpceq]
    exact hshape.1
  constructor
  · rw [generatePosts_posts, ← List.countP_eq_length_filter,
      (List.perm_insertionSort _ _).countP_eq, List.countP_append]
    have hA : List.countP (fun p => p.post_type == PostType.original)
        ((runAuthors inp gen rng).map Prod.snd) = (runAuthors inp gen rng).length := by
      rw [List.countP_map]
      apply List.countP_eq_length.mpr
      intro ap hap
      have h1 := (hmem ap hap).1
      simp [Function.comp, h1]
    have hB : List.countP (fun p => p.post_type == PostType.original)
        (runComments inp gen rng) = 0 := by
      apply List.countP_eq_zero.mpr
      intro c hc
      simp [hcomment c hc]
    rw [hA, hB, Nat.add_zero, hlen]
    exact sumSlots_seven inp
  · intro d hd
    have hd' : d < ((List.range 7).map (fun i => weekStartOf inp + i)).length := by
      simpa using hd
    have hget : ((List.range 7).map (fun i => weekStartOf inp + i)).get ⟨d, hd'⟩ =
        weekStartOf inp + d := by
      rw [List.get_eq_getElem, List.getElem_map, List.getElem_range]
    rw [generatePosts_posts, ← List.countP_eq_length_filter,
      (List.perm_insertionSort _ _).countP_eq, List.countP_append]
    have hB : List.countP (fun p => p.post_type == PostType.original &&
        p.scheduled_date == weekStartOf inp + d) (runComments inp gen rng) = 0 := by
      apply List.countP_eq_zero.mpr
      intro c hc
      simp [hcomment c hc]
    have hA : List.countP (fun p => p.post_type == PostType.original &&
        p.scheduled_date == weekStartOf inp + d)
        ((runAuthors inp gen rng).map Prod.snd) = slotCount inp d := by
      rw [List.countP_map]
      rw [List.countP_congr (q := fun ap =>
        ap.2.scheduled_date == weekStartOf inp + d) ?_]
      · have := hcnt hnodup d hd'
        rw [hget] at this
        rw [List.countP_eq_length_filter]
        simpa using this
      · intro ap hap
        have h1 := (hmem ap hap).1
        simp [Function.comp, h1]
    rw [hA, hB, Nat.add_zero]

/-- C1: for every request that passes validation (at least 2 personas, at
least 1 community, at least 1 topic, posts_per_week at least 1) and any
random stream of unit-interval draws, `generate` succeeds and produces
exactly `posts_per_week` original posts; the originals dated on day `d` of
the week (day 0 being the Monday of the requested week) number
`posts_per_week / 7`, plus one extra exactly when `d < posts_per_week % 7`. -/
theorem c1_original_count_and_daily_distribution
    (inp : CalendarGenerationInput) (gen : Gen) (rng : Rng)
    (hp : 2 ≤ inp.personas.length) (hs : inp.subreddits ≠ [])
    (hq : inp.chatgpt_queries ≠ []) (hn : 1 ≤ inp.posts_per_week)
    (hv : rng.Valid) :
    ∃ res, generate inp gen rng = .ok res ∧
      ((res.posts.filter fun p => p.post_type == PostType.original).length =
        inp.posts_per_week) ∧
      ∀ d : Nat, d < 7 →
        ((res.posts.filter fun p => p.post_type == PostType.original &&
            p.scheduled_date == weekStartOf inp + d).length =
          inp.posts_per_week / 7 +
            (if d < inp.posts_per_week % 7 then 1 else 0)) := by
  refine ⟨_, generate_ok_spec inp gen rng hp hs hq hn, ?_, ?_⟩
  · exact (generatePosts_original_counts inp gen rng hp hs hq hv).1
  · intro d hd
    exact (generatePosts_original_counts inp gen rng hp hs hq hv).2 d hd

/-- Concrete instantiation of the C1 theorem at a small valid request. -/
theorem c1_original_count_and_daily_distribution_witness :
    (2 ≤ inpW.personas.length ∧ inpW.subreddits ≠ [] ∧
      inpW.chatgpt_queries ≠ [] ∧ 1 ≤ inpW.posts_per_week ∧ rngZero.Valid) ∧
    ∃ res, generate inpW failGen rngZero = .ok res ∧
      ((res.posts.filter fun p => p.post_type == PostType.original).length =
        inpW.posts_per_week) ∧
      ∀ d : Nat, d < 7 →
        ((res.posts.filter fun p => p.post_type == PostType.original &&
            p.scheduled_date == weekStartOf inpW + d).length =
          inpW.posts_per_week / 7 +
            (if d < inpW.posts_per_week % 7 then 1 else 0)) :=
  ⟨⟨by decide, by decide, by decide, by decide,
    fun _ => (⟨by decide, by decide, by decide⟩ : Frac.InUnit ⟨0, 1⟩)⟩,
   c1_original_count_and_daily_distribution inpW failGen rngZero
     (by decide) (by decide) (by decide) (by decide)
     (fun _ => (⟨by decide, by decide, by decide⟩ : Frac.InUnit ⟨0, 1⟩))⟩

/-- C10: every generated comment is dated on its parent original's day, and
its hour never exceeds 21; since the hour is clamped by `min 21` before the
`hour >= 22` test, the branch that would roll the comment to the next
calendar day can never fire. -/
theorem c10_comment_date_equals_parent_date
    (inp : CalendarGenerationInput) (gen : Gen) (rng : Rng) :
    ∀ grp ∈ runGroups inp gen rng, ∀ pc ∈ grp.2,
      pc.2.scheduled_date = grp.1.scheduled_date ∧
      pc.2.scheduled_hour ≤ 21 ∧ ¬ 22 ≤ pc.2.scheduled_hour := by
  intro grp hgrp pc hpc
  have h := genCommentsAux_mem inp.personas inp.chatgpt_queries gen
    (idOrEmpty inp.company_id) _ [] _ grp hgrp pc hpc
  have h21 := h.2.2.2.1
  exact ⟨h.2.2.1, h21, by omega⟩

/-- Concrete instantiation of the C10 theorem: the first comment of the
first conversation group of a small run. -/
theorem c10_comment_date_equals_parent_date_witness :
    (groupAt inpW failGen rngZero 0 ∈ runGroups inpW failGen rngZero) ∧
    (((groupAt inpW failGen rngZero 0).2.getD 0 (defaultPersona, defaultPost)) ∈
      (groupAt inpW failGen rngZero 0).2) ∧
    ((((groupAt inpW failGen rngZero 0).2.getD 0
        (defaultPersona, defaultPost)).2.scheduled_date =
      (groupAt inpW failGen rngZero 0).1.scheduled_date) ∧
     (((groupAt inpW failGen rngZero 0).2.getD 0
        (defaultPersona, defaultPost)).2.scheduled_hour ≤ 21) ∧
     ¬ 22 ≤ (((groupAt inpW failGen rngZero 0).2.getD 0
        (defaultPersona, defaultPost)).2.scheduled_hour)) :=
  ⟨by decide, by decide,
   c10_comment_date_equals_parent_date inpW failGen rngZero
     (groupAt inpW failGen rngZero 0) (by decide)
     ((groupAt inpW failGen rngZero 0).2.getD 0 (defaultPersona, defaultPost))
     (by decide)⟩

/-- C2: on every validated request, every comment of the returned post list
carries a parent reference equal to the `id` of some original post of the
same list.  (The property holds degenerately: generated posts are built
without an `id`, so every original's `id` and every comment's
`parent_post_id` are both absent.) -/
theorem c2_comment_parent_is_original_of_run
    (inp : CalendarGenerationInput) (gen : Gen) (rng : Rng)
    (hp : 2 ≤ inp.personas.length) (hs : inp.subreddits ≠ [])
    (hq : inp.chatgpt_queries ≠ []) (hn : 1 ≤ inp.posts_per_week)
    (hv : rng.Valid) :
    ∃ res, generate inp gen rng = .ok res ∧
      ∀ c ∈ res.posts, c.post_type = PostType.comment →
        ∃ p ∈ res.posts, p.post_type = PostType.original ∧
          c.parent_post_id = p.id := by
  refine ⟨_, generate_ok_spec inp gen rng hp hs hq hn, ?_⟩
  intro c hc hcomment
  have hp' : inp.personas ≠ [] := by
    intro h; rw [h] at hp; simp at hp
  obtain ⟨hlen0, hmem0, _⟩ := genWeekAux_spec inp gen hs hp' hq
    (getDaysOfWeek (weekStartOf inp) (weekStartOf inp + 6)) 0 initState rng hv
  have hlen : (runAuthors inp gen rng).length =
      sumSlots inp 0 (getDaysOfWeek (weekStartOf inp) (weekStartOf inp + 6)).length :=
    hlen0
  have hmem : ∀ ap ∈ runAuthors inp gen rng,
      ap.2.post_type = PostType.original ∧ ap.2.id = none ∧
      ap.2.scheduled_date ∈ getDaysOfWeek (weekStartOf inp) (weekStartOf inp + 6) :=
    hmem0
  have h7 : (getDaysOfWeek (weekStartOf inp) (weekStartOf inp + 6)).length = 7 := by
    unfold getDaysOfWeek
    rw [show weekStartOf inp + 6 + 1 - weekStartOf inp = 7 from by omega]
    simp
  have hne : runAuthors inp gen rng ≠ [] := by
    intro h
    have hz := congrArg List.length h
    rw [hlen, h7, sumSlots_seven inp] at hz
    simp at hz
    omega
  rcases List.exists_mem_of_ne_nil _ hne with ⟨ap, hap⟩
  have hc2 : c ∈ (generatePosts inp gen (weekStartOf inp)
      (weekStartOf inp + 6) rng).1 := hc
  rw [generatePosts_posts] at hc2
  have hc3 := (List.perm_insertionSort
    (fun a b => postLeB a b = true)
    ((runAuthors inp gen rng).map Prod.snd ++ runComments inp gen rng)).mem_iff.mp hc2
  have hap2 : ap.2 ∈ (generatePosts inp gen (weekStartOf inp)
      (weekStartOf inp + 6) rng).1 := by
    rw [generatePosts_posts]
    exact (List.perm_insertionSort _ _).mem_iff.mpr
      (List.mem_append.mpr (Or.inl (List.mem_map_of_mem Prod.snd hap)))
  rcases List.mem_append.mp hc3 with hA | hB
  · rcases List.mem_map.mp hA with ⟨bp, hbp, hbpeq⟩
    have := (hmem bp hbp).1
    rw [hbpeq] at this
    rw [this] at hcomment
    exact absurd hcomment (by simp)
  · rcases List.mem_flatMap.mp hB with ⟨grp, hgrp, hcg⟩
    rcases List.mem_map.mp hcg with ⟨pc, hpc, hpceq⟩
    have hshape := genCommentsAux_mem inp.personas inp.chatgpt_queries gen
      (idOrEmpty inp.company_id) _ [] _ grp hgrp pc hpc
    have hfirsts : (runGroups inp gen rng).map Prod.fst =
        (runAuthors inp gen rng).map Prod.snd :=
      genCommentsAux_firsts inp.personas inp.chatgpt_queries gen
        (idOrEmpty inp.company_id) ((runAuthors inp gen rng).map Prod.snd) [] _
    have hg1 : grp.1 ∈ (runAuthors inp gen rng).map Prod.snd := by
      rw [← hfirsts]
      exact List.mem_map_of_mem Prod.fst hgrp
    rcases List.mem_map.mp hg1 with ⟨aq, haq, haqeq⟩
    have hid : grp.1.id = none := by
      rw [← haqeq]; exact (hmem aq haq).2.1
    refine ⟨ap.2, hap2, (hmem ap hap).1, ?_⟩
    rw [← hpceq, hshape.2.1, hid, (hmem ap hap).2.1]

/-- Concrete instantiation of the C2 theorem at a small valid request. -/
theorem c2_comment_parent_is_original_of_run_witness :
    (2 ≤ inpW.personas.length ∧ inpW.subreddits ≠ [] ∧
      inpW.chatgpt_queries ≠ [] ∧ 1 ≤ inpW.posts_per_week ∧ rngZero.Valid) ∧
    ∃ res, generate inpW failGen rngZero = .ok res ∧
      ∀ c ∈ res.posts, c.post_type = PostType.comment →
        ∃ p ∈ res.posts, p.post_type = PostType.original ∧
          c.parent_post_id = p.id :=
  ⟨⟨by decide, by decide, by decide, by decide,
    fun _ => (⟨by decide, by decide, by decide⟩ : Frac.InUnit ⟨0, 1⟩)⟩,
   c2_comment_parent_is_original_of_run inpW failGen rngZero
     (by decide) (by decide) (by decide) (by decide)
     (fun _ => (⟨by decide, by decide, by decide⟩ : Frac.InUnit ⟨0, 1⟩))⟩

/-- The positional duplicate filter finds nothing exactly when the list has
no duplicates. -/
theorem dupList_eq_nil_iff (l : List String) : dupList l = [] ↔ l.Nodup := by
  unfold dupList
  rw [List.map_eq_nil_iff, List.filter_eq_nil_iff]
  constructor
  · intro h
    rw [List.nodup_iff_injective_get]
    intro i j hij
    have hi : (i.1, l.get i) ∈ l.enum := by
      rw [List.mk_mem_enum_iff_getElem?, List.get_eq_getElem,
        List.getElem?_eq_getElem i.2]
    have hj : (j.1, l.get j) ∈ l.enum := by
      rw [List.mk_mem_enum_iff_getElem?, List.get_eq_getElem,
        List.getElem?_eq_getElem j.2]
    have hi2 := h _ hi
    have hj2 := h _ hj
    simp only [bne_iff_ne, ne_eq, not_not] at hi2 hj2
    apply Fin.ext
    rw [← hi2, ← hj2, hij]
  · intro h iu hiu
    rcases iu with ⟨k, u⟩
    rw [List.mk_mem_enum_iff_getElem?] at hiu
    rcases List.getElem?_eq_some.mp hiu with ⟨hk, hu⟩
    simp only [bne_iff_ne, ne_eq, not_not]
    rw [← hu]
    exact List.indexOf_getElem h k hk

/-- C3 (refuted): on a valid request with three personas, some original of
the run receives no generated comment at all — the comment loop's
availability filter compares each candidate's bookkeeping key against
comments on every previous post (all parent references are the absent id),
so the pool empties before the last original.  The returned posts carry no
ids, so a comment cannot be attached to a specific original by parent
reference either. -/
theorem c3_original_without_any_generated_comment :
    3 ≤ inpC3.personas.length ∧
    (∃ grp ∈ runGroups inpC3 failGen rngQuarter,
      grp.1.post_type = PostType.original ∧ grp.2 = []) ∧
    (∀ p ∈ okPosts (generate inpC3 failGen rngQuarter), p.id = none) := by
  decide

/-- C4 (refuted): on a valid request whose personas arrive without persisted
ids, some original receives a comment authored by the very persona that
authored the original — the author-exclusion filter compares the name
fallback key against the post's stored `persona_id` (the empty string), so
it excludes nobody. -/
theorem c4_comment_authored_by_parent_author :
    (∀ p ∈ inpC4.personas, p.id = none) ∧
    ∃ ap ∈ runAuthors inpC4 failGen rngQuarter,
      ∃ grp ∈ runGroups inpC4 failGen rngQuarter,
        grp.1 = ap.2 ∧ ∃ pc ∈ grp.2, pc.1 = ap.1 := by
  decide

/-- C5 (refuted): on a valid request whose personas arrive without persisted
ids, two comments generated for the same original share their persona — the
already-replied filter compares each comment's stored `persona_id` (the
empty string) against the candidate's name fallback key, so it never
excludes a previous replier. -/
theorem c5_two_comments_on_same_original_share_persona :
    (∀ p ∈ inpC5.personas, p.id = none) ∧
    ∃ grp ∈ runGroups inpC5 failGen rngQuarter,
      grp.1.post_type = PostType.original ∧ ¬ (grp.2.map Prod.fst).Nodup := by
  decide

/-- C8: `generate` fails with a `ValidationError` exactly when the personas
number fewer than 2, or there is no community, or no topic, or fewer than 1
post per week is requested; and on a passing request whose lower-cased
handles contain a duplicate, generation succeeds and the result carries a
duplicate-username warning. -/
theorem c8_validation_error_iff_and_duplicate_warning
    (inp : CalendarGenerationInput) (gen : Gen) (rng : Rng) :
    ((∃ e, generate inp gen rng = .error e) ↔
      (inp.personas.length < 2 ∨ inp.subreddits.length = 0 ∨
       inp.chatgpt_queries.length = 0 ∨ inp.posts_per_week < 1)) ∧
    ((2 ≤ inp.personas.length ∧ inp.subreddits.length ≠ 0 ∧
      inp.chatgpt_queries.length ≠ 0 ∧ 1 ≤ inp.posts_per_week) →
      ¬ (inp.personas.map fun p => lowerStr p.reddit_username).Nodup →
      ∃ res, generate inp gen rng = .ok res ∧
        ∃ ds, Warning.duplicateUsernames ds ∈ res.warnings) := by
  constructor
  · constructor
    · rintro ⟨e, he⟩
      by_contra hcon
      push_neg at hcon
      obtain ⟨h1, h2, h3, h4⟩ := hcon
      rw [generate_ok_spec inp gen rng (by omega)
        (fun hh => h2 (by rw [hh]; rfl)) (fun hh => h3 (by rw [hh]; rfl))
        (by omega)] at he
      exact absurd he (by simp)
    · intro hd
      have hverr : ∃ e, validateInputs inp = .error e := by
        unfold validateInputs
        split_ifs with g1 g2 g3 g4
        · exact ⟨_, rfl⟩
        · exact ⟨_, rfl⟩
        · exact ⟨_, rfl⟩
        · exact ⟨_, rfl⟩
        · rcases hd with h | h | h | h <;> omega
      rcases hverr with ⟨e, hver⟩
      refine ⟨e, ?_⟩
      unfold generate
      rw [hver]
  · rintro ⟨h1, h2, h3, h4⟩ hdup
    refine ⟨_, generate_ok_spec inp gen rng h1
      (fun hh => h2 (by rw [hh]; rfl)) (fun hh => h3 (by rw [hh]; rfl)) h4, ?_⟩
    refine ⟨dupList (inp.personas.map fun p => lowerStr p.reddit_username), ?_⟩
    show Warning.duplicateUsernames _ ∈ duplicateUsernameWarnings inp.personas ++ _
    refine List.mem_append.mpr (Or.inl ?_)
    unfold duplicateUsernameWarnings
    dsimp only
    rw [if_neg ?_]
    · exact List.mem_singleton.mpr rfl
    · intro hemp
      exact hdup ((dupList_eq_nil_iff _).mp (List.isEmpty_iff.mp hemp))

/-- Concrete instantiation of the C8 theorem: a personas-empty request is
rejected, and a request with case-insensitively duplicated handles succeeds
with a duplicate-username warning. -/
theorem c8_validation_error_iff_and_duplicate_warning_witness :
    (∃ e, generate inpBad failGen rngZero = .error e) ∧
    (∃ res, generate inpDup failGen rngZero = .ok res ∧
      ∃ ds, Warning.duplicateUsernames ds ∈ res.warnings) :=
  ⟨(c8_validation_error_iff_and_duplicate_warning inpBad failGen rngZero).1.mpr
     (by decide),
   (c8_validation_error_iff_and_duplicate_warning inpDup failGen rngZero).2
     ⟨by decide, by decide, by decide, by decide⟩ (by decide)⟩

/-- Every comment added by the inner loop at iteration index `i + k` is
scheduled `min 21 (parent hour + o)` for an offset `o` of `2..5` on the
first comment of its post and `4..6` on a later one, and would be dated the
next day had the clamped hour reached 22. -/
theorem commentLoopA_times (gen : Gen) (qs : List ChatGPTQuery) (cid : String)
    (others : List Persona) (acc : List CalendarPost) (post : CalendarPost) :
    ∀ (n i : Nat) (sofar : List (Persona × CalendarPost)) (g : Rng), g.Valid →
      ∃ fresh,
        (commentLoopA gen qs cid others acc post n i sofar g).1 = sofar ++ fresh ∧
        ∀ (k : Nat) (hk : k < fresh.length), ∃ o,
          (i + k = 0 → 2 ≤ o ∧ o < 6) ∧ (i + k ≠ 0 → 4 ≤ o ∧ o < 7) ∧
          (fresh.get ⟨k, hk⟩).2.scheduled_hour = min 21 (post.scheduled_hour + o) ∧
          (22 ≤ (fresh.get ⟨k, hk⟩).2.scheduled_hour →
            (fresh.get ⟨k, hk⟩).2.scheduled_date = post.scheduled_date + 1) := by
  intro n
  induction n with
  | zero =>
      intro i sofar g hv
      exact ⟨[], by simp [commentLoopA], fun k hk => absurd hk (by simp)⟩
  | succ m ih =>
      intro i sofar g hv
      unfold commentLoopA
      split
      rename_i r g1 heq
      have h2 : g1 = ⟨g.seq, g.pos + 1⟩ := (congrArg Prod.snd heq).symm
      subst h2
      dsimp only
      split
      · exact ⟨[], (List.append_nil sofar).symm, fun k hk => absurd hk (by simp)⟩
      · rename_i hdP tlP heqA
        dsimp only [Rng.next]
        simp only [roll_branch_unreachable]
        rw [heqA]
        generalize (hdP :: tlP).getD (r.floorMul (hdP :: tlP).length) hdP = cm
        by_cases hi : i = 0
        · rw [if_pos hi]
          have hseq4 : (generateCommentText gen post cm
              (findTopicForPost qs cid post)
              ⟨g.seq, g.pos + 1 + 1 + 1⟩).2.2.seq = g.seq :=
            seq_commentText _ _ _ _ _
          rcases ih (i + 1) _ _ (valid_of_seq_eq hseq4 hv) with ⟨fresh2, hres, hidx⟩
          refine ⟨_ :: fresh2, hres.trans (List.append_assoc _ _ _), ?_⟩
          intro k hk
          match k, hk with
          | 0, hk =>
              refine ⟨2 + (g.seq (g.pos + 1)).floorMul 4, ?_, ?_, rfl, ?_⟩
              · intro _
                have hf := Frac.floorMul_lt (hv (g.pos + 1)) (show 0 < 4 by norm_num)
                omega
              · intro h0
                exact absurd (by omega : i + 0 = 0) h0
              · intro h22
                exact absurd (le_trans h22 (Nat.min_le_left 21 _)) (by norm_num)
          | k + 1, hk =>
              have hk2 : k < fresh2.length := Nat.lt_of_succ_lt_succ hk
              rcases hidx k hk2 with ⟨o, ho1, ho2, ho3, ho4⟩
              refine ⟨o, ?_, ?_, ho3, ho4⟩
              · intro h; exact absurd h (by omega)
              · intro h; exact ho2 (by omega)
        · rw [if_neg hi]
          have hseq4 : (generateCommentText gen post cm
              (findTopicForPost qs cid post)
              ⟨g.seq, g.pos + 1 + 1 + 1⟩).2.2.seq = g.seq :=
            seq_commentText _ _ _ _ _
          rcases ih (i + 1) _ _ (valid_of_seq_eq hseq4 hv) with ⟨fresh2, hres, hidx⟩
          refine ⟨_ :: fresh2, hres.trans (List.append_assoc _ _ _), ?_⟩
          intro k hk
          match k, hk with
          | 0, hk =>
              refine ⟨4 + (g.seq (g.pos + 1)).floorMul 3, ?_, ?_, rfl, ?_⟩
              · intro h0
                exact absurd (by omega : ¬ i + 0 = 0) (by simp [h0])
              · intro _
                have hf := Frac.floorMul_lt (hv (g.pos + 1)) (show 0 < 3 by norm_num)
                omega
              · intro h22
                exact absurd (le_trans h22 (Nat.min_le_left 21 _)) (by norm_num)
          | k + 1, hk =>
              have hk2 : k < fresh2.length := Nat.lt_of_succ_lt_succ hk
              rcases hidx k hk2 with ⟨o, ho1, ho2, ho3, ho4⟩
              refine ⟨o, ?_, ?_, ho3, ho4⟩
              · intro h; exact absurd h (by omega)
              · intro h; exact ho2 (by omega)

/-- The per-post form of the previous lemma, with the loop started at
iteration 0 on an empty accumulator. -/
theorem commentsForPost_times (ps : List Persona) (qs : List ChatGPTQuery)
    (gen : Gen) (cid : String) (acc : List CalendarPost) (post : CalendarPost)
    (g : Rng) (hv : g.Valid) :
    ∀ (k : Nat) (pc : Persona × CalendarPost),
      (commentsForPost ps qs gen cid acc post g).1[k]? = some pc → ∃ o,
        (k = 0 → 2 ≤ o ∧ o < 6) ∧ (k ≠ 0 → 4 ≤ o ∧ o < 7) ∧
        pc.2.scheduled_hour = min 21 (post.scheduled_hour + o) ∧
        (22 ≤ pc.2.scheduled_hour →
          pc.2.scheduled_date = post.scheduled_date + 1) := by
  intro k pc hpc
  unfold commentsForPost at hpc
  split at hpc
  · simp at hpc
  · split at hpc
    rename_i r g1 heq
    have hg1 : g1.seq = g.seq := by
      have h : (g.next).2 = g1 := by rw [heq]
      rw [← h]; rfl
    split at hpc
    all_goals
      dsimp only at hpc
      split at hpc
      · simp at hpc
      · obtain ⟨fresh, hres, hidx⟩ := commentLoopA_times gen qs cid _ acc post
          _ 0 [] g1 (valid_of_seq_eq hg1 hv)
        rw [hres, List.nil_append] at hpc
        rcases List.getElem?_eq_some.mp hpc with ⟨hklt, hpceq⟩
        rcases hidx k hklt with ⟨o, h1, h2, h3, h4⟩
        have hg : fresh.get ⟨k, hklt⟩ = pc := by
          rw [List.get_eq_getElem, hpceq]
        rw [hg] at h3 h4
        exact ⟨o, fun hh => h1 (by omega), fun hh => h2 (by omega), h3, h4⟩

/-- Every comment of every conversation group keeps the offset/clamp
discipline relative to its group's original. -/
theorem genCommentsAux_times (ps : List Persona) (qs : List ChatGPTQuery)
    (gen : Gen) (cid : String) :
    ∀ (posts acc : List CalendarPost) (g : Rng), g.Valid →
      ∀ grp ∈ (genCommentsAux ps qs gen cid posts acc g).1,
        ∀ (k : Nat) (pc : Persona × CalendarPost), grp.2[k]? = some pc → ∃ o,
          (k = 0 → 2 ≤ o ∧ o < 6) ∧ (k ≠ 0 → 4 ≤ o ∧ o < 7) ∧
          pc.2.scheduled_hour = min 21 (grp.1.scheduled_hour + o) ∧
          (22 ≤ pc.2.scheduled_hour →
            pc.2.scheduled_date = grp.1.scheduled_date + 1) := by
  intro posts
  induction posts with
  | nil => intro acc g hv grp hgrp; exact absurd hgrp (by simp [genCommentsAux])
  | cons post rest ih =>
      intro acc g hv grp hgrp
      unfold genCommentsAux at hgrp
      dsimp only at hgrp
      rcases List.mem_cons.mp hgrp with h | h
      · subst h
        exact commentsForPost_times ps qs gen cid acc post g hv
      · exact ih _ _
          (valid_of_seq_eq (seq_commentsForPost ps qs gen cid acc post g) hv)
          grp h

/-- C9: the `k`-th comment generated for an original is scheduled an offset
`o` of hours after the original — `2 ≤ o < 6` for the first comment,
`4 ≤ o < 7` for a second — with the hour clamped to `min 21`, so it never
exceeds 21:00; and had the resulting hour reached 22 the comment would be
dated the next calendar day. -/
theorem c9_comment_time_offsets
    (inp : CalendarGenerationInput) (gen : Gen) (rng : Rng) (hv : rng.Valid) :
    ∀ grp ∈ runGroups inp gen rng, ∀ (k : Nat) (pc : Persona × CalendarPost),
      grp.2[k]? = some pc → ∃ o,
        (k = 0 → 2 ≤ o ∧ o < 6) ∧ (k ≠ 0 → 4 ≤ o ∧ o < 7) ∧
        pc.2.scheduled_hour = min 21 (grp.1.scheduled_hour + o) ∧
        pc.2.scheduled_hour ≤ 21 ∧
        (22 ≤ pc.2.scheduled_hour →
          pc.2.scheduled_date = grp.1.scheduled_date + 1) := by
  intro grp hgrp k pc hpc
  have hv2 : ((genWeekAux inp gen
      (getDaysOfWeek (weekStartOf inp) (weekStartOf inp + 6))
      0 initState rng).2.2).Valid :=
    valid_of_seq_eq (seq_genWeekAux inp gen _ _ _ _) hv
  rcases genCommentsAux_times inp.personas inp.chatgpt_queries gen
      (idOrEmpty inp.company_id)
      ((genWeekAux inp gen (getDaysOfWeek (weekStartOf inp) (weekStartOf inp + 6))
        0 initState rng).1.map Prod.snd)
      [] _ hv2 grp hgrp k pc hpc with ⟨o, h1, h2, h3, h4⟩
  exact ⟨o, h1, h2, h3, by rw [h3]; exact Nat.min_le_left _ _, h4⟩

/-- Concrete instantiation of the C9 theorem: the first comment of the
first conversation group of a small run. -/
theorem c9_comment_time_offsets_witness :
    rngZero.Valid ∧
    (groupAt inpW failGen rngZero 0 ∈ runGroups inpW failGen rngZero) ∧
    ((groupAt inpW failGen rngZero 0).2[0]? =
      some ((groupAt inpW failGen rngZero 0).2.getD 0
        (defaultPersona, defaultPost))) ∧
    ∃ o,
      (0 = 0 → 2 ≤ o ∧ o < 6) ∧ ((0 : Nat) ≠ 0 → 4 ≤ o ∧ o < 7) ∧
      ((groupAt inpW failGen rngZero 0).2.getD 0
          (defaultPersona, defaultPost)).2.scheduled_hour =
        min 21 ((groupAt inpW failGen rngZero 0).1.scheduled_hour + o) ∧
      ((groupAt inpW failGen rngZero 0).2.getD 0
          (defaultPersona, defaultPost)).2.scheduled_hour ≤ 21 ∧
      (22 ≤ ((groupAt inpW failGen rngZero 0).2.getD 0
          (defaultPersona, defaultPost)).2.scheduled_hour →
        ((groupAt inpW failGen rngZero 0).2.getD 0
            (defaultPersona, defaultPost)).2.scheduled_date =
          (groupAt inpW failGen rngZero 0).1.scheduled_date + 1) :=
  ⟨fun _ => (⟨by decide, by decide, by decide⟩ : Frac.InUnit ⟨0, 1⟩),
   by decide, by decide,
   c9_comment_time_offsets inpW failGen rngZero
     (fun _ => (⟨by decide, by decide, by decide⟩ : Frac.InUnit ⟨0, 1⟩))
     (groupAt inpW failGen rngZero 0) (by decide) 0
     ((groupAt inpW failGen rngZero 0).2.getD 0 (defaultPersona, defaultPost))
     (by decide)⟩

/-- The witness generator indeed throws on every call. -/
theorem failGen_throws : failGen.Throws :=
  ⟨fun _ _ _ _ => ⟨_, rfl⟩, fun _ _ _ _ _ _ => ⟨_, rfl⟩,
   fun _ _ _ _ _ _ _ _ => ⟨_, rfl⟩⟩

/-- Under a throwing generator the title falls back to the template tag. -/
theorem titleStep_tag (gen : Gen) (hth : gen.Throws) (p : Persona)
    (s : Subreddit) (t : ChatGPTQuery) (g : Rng) :
    (titleStep gen p s t g).2.1 = SourceTag.template := by
  unfold titleStep
  rcases hth.1 t.query t.intent p.tone s.name with ⟨e, he⟩
  rw [he]

/-- Under a throwing generator the content falls back to the template tag. -/
theorem contentStep_tag (gen : Gen) (hth : gen.Throws) (p : Persona)
    (s : Subreddit) (t : ChatGPTQuery) (g : Rng) :
    (contentStep gen p s t g).2.1 = SourceTag.template := by
  unfold contentStep
  rcases hth.2.1 t.query t.intent p.tone p.bio p.expertise_areas s.name with ⟨e, he⟩
  rw [he]

/-- Under a throwing generator every comment text falls back to the template
tag. -/
theorem generateCommentText_tag (gen : Gen) (hth : gen.Throws)
    (post : CalendarPost) (c : Persona) (t : ChatGPTQuery) (g : Rng) :
    (generateCommentText gen post c t g).2.1 = SourceTag.template := by
  unfold generateCommentText
  dsimp only [Rng.next]
  rcases hth.2.2 post.title post.content
      (if t.query = "" then extractTopicFromTitle post.title else t.query)
      t.intent c.tone c.bio c.expertise_areas
      (commentTypes.getD ((g.seq g.pos).floorMul 6) CommentType.share_experience)
    with ⟨e, he⟩
  rw [he]

/-- Under a throwing generator both provenance tags of a generated original
are `template`. -/
theorem generateOriginalPost_template_tags (gen : Gen) (hth : gen.Throws)
    (p : Persona) (s : Subreddit) (t : ChatGPTQuery) (d i : Nat) (g : Rng) :
    (generateOriginalPost gen p s t d i g).1.title_source =
      some SourceTag.template ∧
    (generateOriginalPost gen p s t d i g).1.content_source =
      some SourceTag.template := by
  constructor
  · show some ((titleStep gen p s t g).2.1) = some SourceTag.template
    rw [titleStep_tag gen hth]
  · show some ((contentStep gen p s t (titleStep gen p s t g).2.2).2.1) =
      some SourceTag.template
    rw [contentStep_tag gen hth]

/-- Under a throwing generator every slot of a day carries template tags. -/
theorem genSlots_tags (inp : CalendarGenerationInput) (gen : Gen)
    (hth : gen.Throws) (day : Nat) :
    ∀ (n : Nat) (st : GenState) (g : Rng),
      ∀ ap ∈ (genSlots inp gen day n st g).1,
        ap.2.title_source = some SourceTag.template ∧
        ap.2.content_source = some SourceTag.template := by
  intro n
  induction n with
  | zero => intro st g ap hap; exact absurd hap (by simp [genSlots])
  | succ k ih =>
      intro st g ap hap
      unfold genSlots at hap
      split at hap
      · exact absurd hap (by simp)
      · rename_i sub g1 heq1
        split at hap
        · exact absurd hap (by simp)
        · rename_i per g2 heq2
          split at hap
          · exact absurd hap (by simp)
          · rename_i top g3 heq3
            dsimp only at hap
            rcases List.mem_cons.mp hap with h1 | h1
            · rw [h1]
              exact generateOriginalPost_template_tags gen hth per sub top day
                st.postIndex g3
            · exact ih _ _ ap h1

/-- Under a throwing generator every original of the week carries template
tags. -/
theorem genWeekAux_tags (inp : CalendarGenerationInput) (gen : Gen)
    (hth : gen.Throws) :
    ∀ (days : List Nat) (j : Nat) (st : GenState) (g : Rng),
      ∀ ap ∈ (genWeekAux inp gen days j st g).1,
        ap.2.title_source = some SourceTag.template ∧
        ap.2.content_source = some SourceTag.template := by
  intro days
  induction days with
  | nil => intro j st g ap hap; exact absurd hap (by simp [genWeekAux])
  | cons day rest ih =>
      intro j st g ap hap
      unfold genWeekAux at hap
      dsimp only at hap
      rcases List.mem_append.mp hap with h | h
      · exact genSlots_tags inp gen hth day _ _ _ ap h
      · exact ih _ _ _ ap h

/-- Under a throwing generator every comment added by the inner loop carries
the template content tag. -/
theorem commentLoopA_tags (gen : Gen) (hth : gen.Throws)
    (qs : List ChatGPTQuery) (cid : String) (others : List Persona)
    (acc : List CalendarPost) (post : CalendarPost) :
    ∀ (n i : Nat) (sofar : List (Persona × CalendarPost)) (g : Rng),
      ∀ pc ∈ (commentLoopA gen qs cid others acc post n i sofar g).1,
        pc ∈ sofar ∨ pc.2.content_source = some SourceTag.template := by
  intro n
  induction n with
  | zero => intro i sofar g pc hpc; exact Or.inl hpc
  | succ k ih =>
      intro i sofar g pc hpc
      unfold commentLoopA at hpc
      split at hpc
      rename_i r g1 heq
      dsimp only [Rng.next] at hpc
      simp only [roll_branch_unreachable] at hpc
      split at hpc
      · exact Or.inl hpc
      · split at hpc
        all_goals
          try split at hpc
          all_goals
            rcases ih _ _ _ pc hpc with hin | hΦ
            · rcases List.mem_append.mp hin with h1 | h2
              · exact Or.inl h1
              · right
                rw [List.mem_singleton.mp h2]
                show some ((generateCommentText gen post _ _ _).2.1) =
                  some SourceTag.template
                rw [generateCommentText_tag gen hth]
            · exact Or.inr hΦ

/-- Under a throwing generator every comment of a post carries the template
content tag. -/
theorem commentsForPost_tags (ps : List Persona) (qs : List ChatGPTQuery)
    (gen : Gen) (hth : gen.Throws) (cid : String) (acc : List CalendarPost)
    (post : CalendarPost) (g : Rng) :
    ∀ pc ∈ (commentsForPost ps qs gen cid acc post g).1,
      pc.2.content_source = some SourceTag.template := by
  intro pc hpc
  unfold commentsForPost at hpc
  split at hpc
  · exact absurd hpc (by simp)
  · split at hpc
    rename_i r g1 heq
    dsimp only at hpc
    split at hpc
    · exact absurd hpc (by simp)
    · rcases commentLoopA_tags gen hth qs cid _ acc post _ 0 [] g1 pc hpc with h | h
      · exact absurd h (by simp)
      · exact h

/-- Under a throwing generator every comment of every group carries the
template content tag. -/
theorem genCommentsAux_tags (ps : List Persona) (qs : List ChatGPTQuery)
    (gen : Gen) (hth : gen.Throws) (cid : String) :
    ∀ (posts acc : List CalendarPost) (g : Rng),
      ∀ grp ∈ (genCommentsAux ps qs gen cid posts acc g).1,
        ∀ pc ∈ grp.2, pc.2.content_source = some SourceTag.template := by
  intro posts
  induction posts with
  | nil => intro acc g grp hgrp; exact absurd hgrp (by simp [genCommentsAux])
  | cons post rest ih =>
      intro acc g grp hgrp
      unfold genCommentsAux at hgrp
      dsimp only at hgrp
      rcases List.mem_cons.mp hgrp with h | h
      · intro pc hpc
        subst h
        exact commentsForPost_tags ps qs gen hth cid acc post g pc hpc
      · exact ih _ _ grp h

/-- C7: if the injected external generator throws on every call, generation
still succeeds with the full week of `posts_per_week` originals, every
original carries the `template` tag on both title and content, every
comment carries the `template` tag on its content and no title tag at all,
and no generator error reaches the caller. -/
theorem c7_template_fallback_on_total_failure
    (inp : CalendarGenerationInput) (gen : Gen) (rng : Rng) (hth : gen.Throws)
    (hp : 2 ≤ inp.personas.length) (hs : inp.subreddits ≠ [])
    (hq : inp.chatgpt_queries ≠ []) (hn : 1 ≤ inp.posts_per_week)
    (hv : rng.Valid) :
    ∃ res, generate inp gen rng = .ok res ∧
      ((res.posts.filter fun p => p.post_type == PostType.original).length =
        inp.posts_per_week) ∧
      ∀ p ∈ res.posts,
        (p.post_type = PostType.original →
          p.title_source = some SourceTag.template ∧
          p.content_source = some SourceTag.template) ∧
        (p.post_type = PostType.comment →
          p.content_source = some SourceTag.template ∧
          p.title_source = none) := by
  refine ⟨_, generate_ok_spec inp gen rng hp hs hq hn, ?_, ?_⟩
  · exact (generatePosts_original_counts inp gen rng hp hs hq hv).1
  · intro p hp2
    have hp' : inp.personas ≠ [] := by
      intro h; rw [h] at hp; simp at hp
    obtain ⟨_, hmem0, _⟩ := genWeekAux_spec inp gen hs hp' hq
      (getDaysOfWeek (weekStartOf inp) (weekStartOf inp + 6)) 0 initState rng hv
    have hmem : ∀ ap ∈ runAuthors inp gen rng,
        ap.2.post_type = PostType.original ∧ ap.2.id = none ∧
        ap.2.scheduled_date ∈ getDaysOfWeek (weekStartOf inp) (weekStartOf inp + 6) :=
      hmem0
    have hp3 : p ∈ (generatePosts inp gen (weekStartOf inp)
        (weekStartOf inp + 6) rng).1 := hp2
    rw [generatePosts_posts] at hp3
    have hp4 := (List.perm_insertionSort
      (fun a b => postLeB a b = true)
      ((runAuthors inp gen rng).map Prod.snd ++ runComments inp gen rng)).mem_iff.mp hp3
    rcases List.mem_append.mp hp4 with hA | hB
    · rcases List.mem_map.mp hA with ⟨ap, hap, hapeq⟩
      have htags := genWeekAux_tags inp gen hth _ _ _ _ ap hap
      constructor
      · intro _
        rw [← hapeq]
        exact htags
      · intro hcomm
        have horig := (hmem ap hap).1
        rw [hapeq, hcomm] at horig
        exact absurd horig (by simp)
    · rcases List.mem_flatMap.mp hB with ⟨grp, hgrp, hcg⟩
      rcases List.mem_map.mp hcg with ⟨pc, hpc, hpceq⟩
      have hshape := genCommentsAux_mem inp.personas inp.chatgpt_queries gen
        (idOrEmpty inp.company_id) _ [] _ grp hgrp pc hpc
      have hctag := genCommentsAux_tags inp.personas inp.chatgpt_queries gen hth
        (idOrEmpty inp.company_id) _ [] _ grp hgrp pc hpc
      constructor
      · intro horig
        rw [← hpceq] at horig
        rw [hshape.1] at horig
        exact absurd horig (by simp)
      · intro _
        rw [← hpceq]
        exact ⟨hctag, hshape.2.2.2.2.2⟩

/-- Concrete instantiation of the C7 theorem at a small valid request with
the always-throwing generator. -/
theorem c7_template_fallback_on_total_failure_witness :
    failGen.Throws ∧
    ∃ res, generate inpW failGen rngZero = .ok res ∧
      ((res.posts.filter fun p => p.post_type == PostType.original).length =
        inpW.posts_per_week) ∧
      ∀ p ∈ res.posts,
        (p.post_type = PostType.original →
          p.title_source = some SourceTag.template ∧
          p.content_source = some SourceTag.template) ∧
        (p.post_type = PostType.comment →
          p.content_source = some SourceTag.template ∧
          p.title_source = none) :=
  ⟨failGen_throws,
   c7_template_fallback_on_total_failure inpW failGen rngZero failGen_throws
     (by decide) (by decide) (by decide) (by decide)
     (fun _ => (⟨by decide, by decide, by decide⟩ : Frac.InUnit ⟨0, 1⟩))⟩

/-! ## The scorer agrees with the specification formula -/

/-- Folding repeated subtraction equals subtracting the filtered count. -/
theorem foldl_sub_filter {α : Type} (p : α → Bool) (c : ℚ) :
    ∀ (l : List α) (init : ℚ),
      l.foldl (fun s a => if p a then s - c else s) init =
        init - c * ((l.filter p).length : ℚ) := by
  intro l
  induction l with
  | nil => intro init; simp
  | cons a as ih =>
      intro init
      rw [List.foldl_cons, ih, List.filter_cons]
      by_cases h : p a
      · rw [if_pos h, if_pos h]
        push_cast [List.length_cons]
        ring
      · rw [if_neg h, if_neg h]

/-- The community section equals the specification formula. -/
theorem scoreSubreddit_eq (subs : List Subreddit)
    (originalPosts : List CalendarPost) :
    scoreSubreddit subs originalPosts =
      communityComplianceSpec subs originalPosts := by
  unfold scoreSubreddit communityComplianceSpec
  dsimp only
  rw [foldl_sub_filter]
  by_cases h : ((uniq (originalPosts.map fun p => p.subreddit_id)).filter
      fun sid =>
        decide ((originalPosts.filter fun p => p.subreddit_id == sid).length >
          match subs.find? fun s => subKey s == sid with
          | some s => limitOf s
          | none => 2)).length = 0
  · rw [if_pos h, h]
    norm_num
  · rw [if_neg h]

/-- The persona section equals the specification formula. -/
theorem scorePersona_eq (posts : List CalendarPost) :
    scorePersona posts = personaVarietySpec posts := by
  unfold scorePersona personaVarietySpec
  dsimp only
  by_cases h : (uniq (posts.map fun p => p.persona_id)).length ≥ 3
  · rw [if_pos h, if_pos h]
  · rw [if_neg h, if_neg h, add_zero]

/-- The topic section equals the specification formula. -/
theorem scoreTopic_eq (originalPosts : List CalendarPost) :
    scoreTopic originalPosts = topicDiversitySpec originalPosts := rfl

/-- The comment-ratio section equals the specification formula (the two
`−0.5` branches of the source collapse into the specification's single
`else −0.5`). -/
theorem scoreComment_eq (originalPosts comments : List CalendarPost) :
    scoreComment originalPosts comments =
      commentRatioSpec originalPosts comments := by
  unfold scoreComment commentRatioSpec
  dsimp only
  split_ifs <;> rfl

/-- The time section equals the specification formula. -/
theorem scoreTime_eq (posts : List CalendarPost) :
    scoreTime posts = timeDistributionSpec posts := rfl

/-- The full scorer equals the specification formula. -/
theorem calculateQualityScore_eq_spec (subs : List Subreddit)
    (posts : List CalendarPost) :
    calculateQualityScore subs posts = qualityScoreSpec subs posts := by
  unfold calculateQualityScore qualityScoreSpec
  dsimp only
  rw [scoreSubreddit_eq, scorePersona_eq, scoreTopic_eq, scoreComment_eq,
    scoreTime_eq]

/-- A week with no originals scores exactly 0. -/
theorem calculateQualityScore_zero (subs : List Subreddit)
    (posts : List CalendarPost)
    (h : (posts.filter fun p => p.post_type == PostType.original).length = 0) :
    calculateQualityScore subs posts = 0 := by
  unfold calculateQualityScore
  dsimp only
  rw [if_pos h]

/-- One-decimal JavaScript rounding keeps values of `[0, 10]` in `[0, 10]`. -/
theorem jsRound1_bounds {x : ℚ} (h0 : 0 ≤ x) (h10 : x ≤ 10) :
    0 ≤ jsRound1 x ∧ jsRound1 x ≤ 10 := by
  unfold jsRound1
  constructor
  · apply div_nonneg _ (by norm_num)
    exact_mod_cast Int.le_floor.mpr (by push_cast; linarith)
  · have hlt : ⌊x * 10 + 1 / 2⌋ < 101 := Int.floor_lt.mpr (by push_cast; linarith)
    have hle : ((⌊x * 10 + 1 / 2⌋ : ℤ) : ℚ) ≤ 100 := by
      exact_mod_cast (by omega : ⌊x * 10 + 1 / 2⌋ ≤ 100)
    rw [div_le_iff₀ (by norm_num : (0:ℚ) < 10)]
    linarith

/-- The scorer always lands in `[0, 10]`. -/
theorem calculateQualityScore_bounds (subs : List Subreddit)
    (posts : List CalendarPost) :
    0 ≤ calculateQualityScore subs posts ∧
    calculateQualityScore subs posts ≤ 10 := by
  unfold calculateQualityScore
  dsimp only
  split
  · norm_num
  · exact jsRound1_bounds (le_max_left _ _)
      (max_le (by norm_num) (min_le_left _ _))

set_option maxHeartbeats 1000000 in
/-- C6: on every validated request the returned quality score is
`clamp(5.0 + the five sub-scores, 0, 10)` rounded to one decimal — stated
as equality with the specification-worded formula `qualityScoreSpec`; a
week with zero originals would score exactly 0; and the score always lies
in `[0, 10]`. -/
theorem c6_quality_score_formula
    (inp : CalendarGenerationInput) (gen : Gen) (rng : Rng)
    (hp : 2 ≤ inp.personas.length) (hs : inp.subreddits ≠ [])
    (hq : inp.chatgpt_queries ≠ []) (hn : 1 ≤ inp.posts_per_week) :
    ∃ res, generate inp gen rng = .ok res ∧
      res.quality_score = qualityScoreSpec inp.subreddits res.posts ∧
      ((res.posts.filter fun p => p.post_type == PostType.original).length = 0 →
        res.quality_score = 0) ∧
      0 ≤ res.quality_score ∧ res.quality_score ≤ 10 := by
  refine ⟨_, generate_ok_spec inp gen rng hp hs hq hn, ?_, ?_, ?_, ?_⟩
  · show calculateQualityScore inp.subreddits
        (generatePosts inp gen (weekStartOf inp) (weekStartOf inp + 6) rng).1 =
      qualityScoreSpec inp.subreddits
        (generatePosts inp gen (weekStartOf inp) (weekStartOf inp + 6) rng).1
    exact calculateQualityScore_eq_spec inp.subreddits _
  · show ((generatePosts inp gen (weekStartOf inp) (weekStartOf inp + 6)
        rng).1.filter fun p => p.post_type == PostType.original).length = 0 →
      calculateQualityScore inp.subreddits
        (generatePosts inp gen (weekStartOf inp) (weekStartOf inp + 6) rng).1 = 0
    intro h
    exact calculateQualityScore_zero inp.subreddits _ h
  · show 0 ≤ calculateQualityScore inp.subreddits
        (generatePosts inp gen (weekStartOf inp) (weekStartOf inp + 6) rng).1
    exact (calculateQualityScore_bounds inp.subreddits _).1
  · show calculateQualityScore inp.subreddits
        (generatePosts inp gen (weekStartOf inp) (weekStartOf inp + 6) rng).1 ≤ 10
    exact (calculateQualityScore_bounds inp.subreddits _).2

/-- Concrete instantiation of the C6 theorem at a small valid request. -/
theorem c6_quality_score_formula_witness :
    (2 ≤ inpW.personas.length ∧ inpW.subreddits ≠ [] ∧
      inpW.chatgpt_queries ≠ [] ∧ 1 ≤ inpW.posts_per_week) ∧
    ∃ res, generate inpW failGen rngZero = .ok res ∧
      res.quality_score = qualityScoreSpec inpW.subreddits res.posts ∧
      ((res.posts.filter fun p => p.post_type == PostType.original).length = 0 →
        res.quality_score = 0) ∧
      0 ≤ res.quality_score ∧ res.quality_score ≤ 10 :=
  ⟨⟨by decide, by decide, by decide, by decide⟩,
   c6_quality_score_formula inpW failGen rngZero
     (by decide) (by decide) (by decide) (by decide)⟩

end RMM
